import Mathlib

/-!
Verification development for the reading-tracker offline sync engine.

The JavaScript sources are embedded shallowly: each relevant function is
translated into a pure Lean function over explicit state.  Conventions used
throughout:

* ISO-8601 timestamps are modelled as `Int` milliseconds since the epoch;
  the source always compares them through `new Date(...)`, which is exactly
  this numeric order.  A fresh `new Date().toISOString()` stamp is passed in
  as a `now : Int` parameter.
* A nullable / possibly-absent JavaScript field is an `Option`.  The JS
  expression `x || null` on a number maps `0` to `null` (`jsNumOrNull`); on a
  string it maps the empty string to `null` (`jsStrOrNull`); `x || d` with a
  string default is `jsStrOrDefault`.
* IndexedDB object stores are association lists keyed by their `keyPath`;
  `put` is upsert by key, `index.getAll(v)` is `filter`, `store.get(k)` /
  `index.get(v)` is `find?`.
* `id` generation (`generateId`, UUID v4) is nondeterministic in the source;
  generated identifiers are taken as explicit parameters.
* Asynchronous success paths of the sync drivers are modelled as total
  functions from the pre-state (plus the server response) to the post-state;
  a thrown JS error is `Except.error` with the thrown message.
-/

namespace ReadingTracker

/-- JS truthiness for an optional number: `null`/`undefined` and `0` are falsy. -/
def jsTruthyNat (o : Option Nat) : Bool :=
  match o with
  | some n => n ≠ 0
  | none => false

/-- JS truthiness for an optional string: `null`/`undefined` and `""` are falsy. -/
def jsTruthyStr (o : Option String) : Bool :=
  match o with
  | some s => s ≠ ""
  | none => false

/-- JS `new Date(t) < new Date(bound)` where `t` may be absent:
`new Date(undefined)` is an invalid date (`NaN`), every comparison with
which is false. -/
def dateBefore (t : Option Int) (bound : Int) : Bool :=
  match t with
  | some v => v < bound
  | none => false

/-- JS `x || null` for an optional number (`0` collapses to `null`). -/
def jsNumOrNull (o : Option Nat) : Option Nat :=
  match o with
  | some n => if n = 0 then none else some n
  | none => none

/-- JS `x || null` for an optional string (`""` collapses to `null`). -/
def jsStrOrNull (o : Option String) : Option String :=
  match o with
  | some s => if s = "" then none else some s
  | none => none

/-- JS `x || d` for an optional string with a default. -/
def jsStrOrDefault (o : Option String) (d : String) : String :=
  match o with
  | some s => if s = "" then d else s
  | none => d

/-- JS `String.prototype.includes`: substring containment test. -/
def includesStr (s pat : String) : Bool :=
  s.toList.tails.any fun t => pat.toList.isPrefixOf t

/-- Insert `a` into a list after every element whose key is not greater,
keeping equal keys in their original order (the stable insertion used by
`sortByKey`, the model of JS `Array.prototype.sort` with a numeric
comparator, which is stable). -/
def insertByKey {α : Type} (key : α → Int) (a : α) : List α → List α
  | [] => [a]
  | b :: l => if key a < key b then a :: b :: l else b :: insertByKey key a l

/-- Stable sort by an integer key: the model of the source's
`arr.sort((a, b) => keyA - keyB)`. -/
def sortByKey {α : Type} (key : α → Int) : List α → List α
  | [] => []
  | a :: l => insertByKey key a (sortByKey key l)

theorem perm_insertByKey {α : Type} (key : α → Int) (a : α) (l : List α) :
    List.Perm (insertByKey key a l) (a :: l) := by
  induction l with
  | nil => simp [insertByKey]
  | cons b l ih =>
      by_cases h : key a < key b
      · simp [insertByKey, h]
      · simp only [insertByKey, h, if_false]
        exact List.Perm.trans (List.Perm.cons b ih) (List.Perm.swap a b l)

theorem perm_sortByKey {α : Type} (key : α → Int) (l : List α) :
    List.Perm (sortByKey key l) l := by
  induction l with
  | nil => simp [sortByKey]
  | cons a l ih =>
      exact List.Perm.trans (perm_insertByKey key a (sortByKey key l))
        (List.Perm.cons a ih)

theorem pairwise_insertByKey {α : Type} (key : α → Int) (a : α) (l : List α)
    (h : List.Pairwise (fun x y => key x ≤ key y) l) :
    List.Pairwise (fun x y => key x ≤ key y) (insertByKey key a l) := by
  induction l with
  | nil => simp [insertByKey]
  | cons b l ih =>
      rcases List.pairwise_cons.mp h with ⟨hb, hl⟩
      by_cases hab : key a < key b
      · simp only [insertByKey, if_pos hab]
        refine List.pairwise_cons.mpr ⟨?_, h⟩
        intro c hc
        rcases List.mem_cons.mp hc with rfl | hc
        · exact le_of_lt hab
        · exact le_trans (le_of_lt hab) (hb c hc)
      · simp only [insertByKey, if_neg hab]
        refine List.pairwise_cons.mpr ⟨?_, ih hl⟩
        intro c hc
        have hmem := (perm_insertByKey key a l).mem_iff.mp hc
        rcases List.mem_cons.mp hmem with rfl | hmem
        · exact le_of_not_lt hab
        · exact hb c hmem

theorem pairwise_sortByKey {α : Type} (key : α → Int) (l : List α) :
    List.Pairwise (fun x y => key x ≤ key y) (sortByKey key l) := by
  induction l with
  | nil => simp [sortByKey]
  | cons a l ih => exact pairwise_insertByKey key a (sortByKey key l) ih

/-- IndexedDB `store.put` on a store whose `keyPath` is `key`: replace the
record with the same key, or append the record if the key is new. -/
def putKeyed {α : Type} (key : α → String) (store : List α) (x : α) : List α :=
  if store.any (fun y => key y = key x) then
    store.map (fun y => if key y = key x then x else y)
  else
    store ++ [x]

/-- IndexedDB `store.get` / `index.get` by key. -/
def findKeyed {α : Type} (key : α → String) (store : List α) (k : String) : Option α :=
  store.find? (fun y => key y = k)

/-- IndexedDB `store.delete` by key. -/
def deleteKeyed {α : Type} (key : α → String) (store : List α) (k : String) : List α :=
  store.filter (fun y => key y ≠ k)

theorem findKeyed_putKeyed {α : Type} (key : α → String) (s : List α) (x : α) :
    findKeyed key (putKeyed key s x) (key x) = some x := by
  unfold putKeyed findKeyed
  by_cases hany : s.any (fun y => key y = key x)
  · rw [if_pos hany, List.find?_map]
    have hpf : ((fun y => decide (key y = key x)) ∘
        (fun y => if key y = key x then x else y)) = fun y => decide (key y = key x) := by
      funext y
      show decide (key (if key y = key x then x else y) = key x) = decide (key y = key x)
      by_cases hy : key y = key x
      · rw [if_pos hy, hy]
      · rw [if_neg hy]
    rw [hpf]
    rcases List.any_eq_true.mp hany with ⟨z, hz, hkz⟩
    have hsome : (List.find? (fun y => decide (key y = key x)) s).isSome :=
      List.find?_isSome.mpr ⟨z, hz, hkz⟩
    rcases Option.isSome_iff_exists.mp hsome with ⟨w, hw⟩
    have hkw : key w = key x := by simpa using List.find?_some hw
    rw [hw]
    simp [hkw]
  · rw [if_neg hany, List.find?_append]
    have h1 : List.find? (fun y => decide (key y = key x)) s = none := by
      rw [List.find?_eq_none]
      intro y hy hk
      exact hany (List.any_eq_true.mpr ⟨y, hy, hk⟩)
    rw [h1]
    simp [List.find?]

theorem findKeyed_putKeyed_ne {α : Type} (key : α → String) (s : List α) (x : α)
    (k : String) (h : k ≠ key x) :
    findKeyed key (putKeyed key s x) k = findKeyed key s k := by
  unfold putKeyed findKeyed
  by_cases hany : s.any (fun y => key y = key x)
  · rw [if_pos hany, List.find?_map]
    have hpf : ((fun y => decide (key y = k)) ∘
        (fun y => if key y = key x then x else y)) = fun y => decide (key y = k) := by
      funext y
      show decide (key (if key y = key x then x else y) = k) = decide (key y = k)
      by_cases hy : key y = key x
      · rw [if_pos hy, hy]
      · rw [if_neg hy]
    rw [hpf]
    cases hz : List.find? (fun y => decide (key y = k)) s with
    | none => simp
    | some z =>
        have hkz : key z = k := by simpa using List.find?_some hz
        have hne : ¬ (key z = key x) := fun hh => h (hkz ▸ hh)
        simp [hne]
  · rw [if_neg hany, List.find?_append]
    cases hz : List.find? (fun y => decide (key y = k)) s with
    | none =>
        have hxk : ¬ (key x = k) := fun hh => h hh.symm
        simp [List.find?, hxk]
    | some z => simp

theorem findKeyed_key {α : Type} (key : α → String) (s : List α) (k : String) (x : α)
    (h : findKeyed key s k = some x) : key x = k := by
  have := List.find?_some h
  simpa using this

theorem findKeyed_mem {α : Type} (key : α → String) (s : List α) (k : String) (x : α)
    (h : findKeyed key s k = some x) : x ∈ s :=
  List.mem_of_find?_eq_some h

theorem findKeyed_deleteKeyed {α : Type} (key : α → String) (s : List α) (k : String) :
    findKeyed key (deleteKeyed key s k) k = none := by
  unfold findKeyed deleteKeyed
  rw [List.find?_eq_none]
  intro x hx
  have := (List.mem_filter.mp hx).2
  simpa using this

theorem mem_putKeyed_of_ne {α : Type} (key : α → String) (s : List α) (x i : α)
    (hki : key i ≠ key x) (hi : i ∈ s) : i ∈ putKeyed key s x := by
  unfold putKeyed
  by_cases hany : s.any (fun y => key y = key x)
  · rw [if_pos hany]
    exact List.mem_map.mpr ⟨i, hi, by simp [hki]⟩
  · rw [if_neg hany]
    exact List.mem_append_left _ hi

theorem keysNodup_putKeyed {α : Type} (key : α → String) (s : List α) (x : α)
    (h : (s.map key).Nodup) : ((putKeyed key s x).map key).Nodup := by
  unfold putKeyed
  by_cases hany : s.any (fun y => key y = key x)
  · rw [if_pos hany]
    have : (s.map (fun y => if key y = key x then x else y)).map key = s.map key := by
      rw [List.map_map]
      apply List.map_congr_left
      intro a _
      by_cases ha : key a = key x
      · simp [ha]
      · simp [ha]
    rw [this]
    exact h
  · rw [if_neg hany]
    rw [List.map_append]
    refine List.Nodup.append h (by simp) ?_
    intro a ha hb
    rcases List.mem_map.mp ha with ⟨c, hc, rfl⟩
    simp only [List.map_cons, List.map_nil, List.mem_singleton] at hb
    exact hany (List.any_eq_true.mpr ⟨c, hc, by simpa using hb⟩)

theorem nodupKeys_eq {α : Type} (key : α → String) (s : List α)
    (h : (s.map key).Nodup) (a b : α) (ha : a ∈ s) (hb : b ∈ s)
    (hk : key a = key b) : a = b := by
  induction s with
  | nil => cases ha
  | cons c s ih =>
      rw [List.map_cons, List.nodup_cons] at h
      rcases List.mem_cons.mp ha with rfl | ha' <;> rcases List.mem_cons.mp hb with rfl | hb'
      · rfl
      · exact absurd (List.mem_map.mpr ⟨b, hb', hk.symm⟩) h.1
      · exact absurd (List.mem_map.mpr ⟨a, ha', hk⟩) h.1
      · exact ih h.2 ha' hb'

theorem foldl_putKeyed_preserve {α : Type} (key : α → String) (upd : α → α)
    (c : α → Prop) [DecidablePred c] (hkey : ∀ a, key (upd a) = key a)
    (lst : List α) (st : List α) (k : String)
    (h : ∀ a ∈ lst, key a = k → ¬ c a) :
    findKeyed key
      (lst.foldl (fun s a => if c a then putKeyed key s (upd a) else s) st) k
      = findKeyed key st k := by
  induction lst generalizing st with
  | nil => rfl
  | cons a lst ih =>
      rw [List.foldl_cons]
      by_cases hca : c a
      · have hka : key a ≠ k := fun hk => h a (by simp) hk hca
        rw [if_pos hca]
        rw [ih _ (fun b hb => h b (by simp [hb]))]
        exact findKeyed_putKeyed_ne key st (upd a) k (by rw [hkey]; exact fun hh => hka hh.symm)
      · rw [if_neg hca]
        exact ih _ (fun b hb => h b (by simp [hb]))

theorem foldl_putKeyed_mem {α : Type} (key : α → String) (upd : α → α)
    (c : α → Prop) [DecidablePred c] (hkey : ∀ a, key (upd a) = key a)
    (lst : List α) (st : List α) (i : α)
    (hi : i ∈ lst) (hdist : (lst.map key).Nodup) (hc : c i) :
    findKeyed key
      (lst.foldl (fun s a => if c a then putKeyed key s (upd a) else s) st) (key i)
      = some (upd i) := by
  induction lst generalizing st with
  | nil => cases hi
  | cons a lst ih =>
      rw [List.map_cons, List.nodup_cons] at hdist
      rcases List.mem_cons.mp hi with rfl | hi'
      · rw [List.foldl_cons, if_pos hc]
        rw [foldl_putKeyed_preserve key upd c hkey lst _ (key i)
          (fun b hb hkb _ => hdist.1 (hkb ▸ List.mem_map.mpr ⟨b, hb, rfl⟩))]
        exact (hkey i) ▸ findKeyed_putKeyed key st (upd i)
      · rw [List.foldl_cons]
        by_cases hca : c a
        · rw [if_pos hca]
          exact ih _ hi' hdist.2
        · rw [if_neg hca]
          exact ih _ hi' hdist.2

/-- Payload of a queue item (`item.data`): only the fields the embedded
operations inspect are carried; `memoStartTime` is the payload's optional
ISO stamp (`none` when absent or empty). -/
structure Payload where
  memoStartTime : Option Int
  content : Option String
  deriving DecidableEq, Repr

/-- A `sync_queue` record, as built by `SyncQueueManager.enqueue`
(src/unnamed/part_005) and by the Service Worker's failed-request handlers
(src/unnamed/part_001).  JS objects are open records, so the structure has
the union of the fields any embedded code path reads or writes; a field a
given writer does not set is `none`. -/
structure QueueItem where
  id : String
  type : String
  localMemoId : Option String
  serverMemoId : Option Nat
  localBookId : Option String
  serverBookId : Option Nat
  data : Payload
  status : String
  originalQueueId : Option String
  idempotencyKey : Option String
  retryCount : Nat
  error : Option String
  createdAt : Int
  updatedAt : Option Int
  lastRetryAt : Option Int
  requestUrl : Option String
  requestMethod : Option String
  deriving DecidableEq, Repr

/-- An `offline_memos` record (keyPath `localId`). -/
structure Memo where
  localId : String
  serverId : Option Nat
  userBookId : Nat
  pageNumber : Option Nat
  content : String
  tags : List String
  memoStartTime : Option Int
  syncStatus : String
  createdAt : Int
  updatedAt : Int
  syncQueueId : Option String
  deriving DecidableEq, Repr

/-- An `offline_books` record (keyPath `localId`), with the fields created in
`OfflineBookService.addBookToShelf`. -/
structure Book where
  localId : String
  serverId : Option Nat
  bookId : Option Nat
  isbn : String
  title : String
  author : String
  publisher : String
  description : Option String
  coverUrl : Option String
  totalPages : Option Nat
  mainGenre : Option String
  pubDate : Option String
  category : String
  expectation : Option String
  lastReadPage : Option Nat
  lastReadAt : Option Int
  readingFinishedDate : Option Int
  purchaseType : Option String
  rating : Option Nat
  review : Option String
  syncStatus : String
  createdAt : Int
  updatedAt : Int
  syncQueueId : Option String
  deriving DecidableEq, Repr

/-- The `sync_queue` object store. -/
abbrev QueueStore := List QueueItem

/-- The `offline_memos` object store. -/
abbrev MemoStore := List Memo

/-- The `offline_books` object store. -/
abbrev BookStore := List Book

namespace DbManager

/-- `dbManager.saveMemo`: `put` on `offline_memos`. -/
def saveMemo (store : MemoStore) (m : Memo) : MemoStore :=
  putKeyed Memo.localId store m

/-- `dbManager.getMemoByLocalId`. -/
def getMemoByLocalId (store : MemoStore) (localId : String) : Option Memo :=
  findKeyed Memo.localId store localId

/-- `dbManager.getMemoByServerId`: lookup through the `serverId` index
(records with a `null` `serverId` have no index entry). -/
def getMemoByServerId (store : MemoStore) (serverId : Nat) : Option Memo :=
  store.find? (fun m => m.serverId = some serverId)

/-- `dbManager.deleteMemo`. -/
def deleteMemo (store : MemoStore) (localId : String) : MemoStore :=
  deleteKeyed Memo.localId store localId

/-- `dbManager.updateMemoWithServerId`: set `serverId` and flip
`syncStatus` to `synced` (no-op when the memo is absent). -/
def updateMemoWithServerId (store : MemoStore) (localId : String) (serverId : Nat) :
    MemoStore :=
  match getMemoByLocalId store localId with
  | some m => saveMemo store { m with serverId := some serverId, syncStatus := "synced" }
  | none => store

/-- `dbManager.saveBook`. -/
def saveBook (store : BookStore) (b : Book) : BookStore :=
  putKeyed Book.localId store b

/-- `dbManager.getBookByLocalId`. -/
def getBookByLocalId (store : BookStore) (localId : String) : Option Book :=
  findKeyed Book.localId store localId

/-- `dbManager.deleteBook`. -/
def deleteBook (store : BookStore) (localId : String) : BookStore :=
  deleteKeyed Book.localId store localId

/-- `dbManager.updateBookWithServerId`. -/
def updateBookWithServerId (store : BookStore) (localId : String) (serverId : Nat) :
    BookStore :=
  match getBookByLocalId store localId with
  | some b => saveBook store { b with serverId := some serverId, syncStatus := "synced" }
  | none => store

end DbManager

namespace SyncQueueManager

/-- `this.maxRetries` of `SyncQueueManager`. -/
def maxRetries : Nat := 3

/-- `this.retryDelay` of `SyncQueueManager` (5 000 ms). -/
def retryDelay : Nat := 5000

/-- The argument record of `SyncQueueManager.enqueue` (the fields `enqueue`
reads from the caller's object; any other property of the argument is
silently dropped by `enqueue`). -/
structure EnqueueArg where
  type : String
  localMemoId : Option String
  serverMemoId : Option Nat
  data : Payload
  status : Option String
  originalQueueId : Option String
  idempotencyKey : Option String
  deriving DecidableEq, Repr

/-- `SyncQueueManager.enqueue`: build a fresh queue record (new `id` from
`generateId`, `retryCount` 0, fresh `createdAt`) and `put` it into
`sync_queue`; returns the stored item. -/
def enqueue (store : QueueStore) (item : EnqueueArg) (freshId : String) (now : Int) :
    QueueStore × QueueItem :=
  let queueItem : QueueItem :=
    { id := freshId
      type := item.type
      localMemoId := item.localMemoId
      serverMemoId := jsNumOrNull item.serverMemoId
      localBookId := none
      serverBookId := none
      data := item.data
      status := jsStrOrDefault item.status "PENDING"
      originalQueueId := jsStrOrNull item.originalQueueId
      idempotencyKey := jsStrOrNull item.idempotencyKey
      retryCount := 0
      error := none
      createdAt := now
      updatedAt := none
      lastRetryAt := none
      requestUrl := none
      requestMethod := none }
  (putKeyed QueueItem.id store queueItem, queueItem)

/-- `SyncQueueManager.updateStatus`: set `status` (and `lastRetryAt` when the
new status is `SYNCING`) on the stored item; no-op when absent. -/
def updateStatus (store : QueueStore) (queueId status : String) (now : Int) : QueueStore :=
  match findKeyed QueueItem.id store queueId with
  | some item =>
      putKeyed QueueItem.id store
        { item with
          status := status
          updatedAt := some now
          lastRetryAt := if status = "SYNCING" then some now else item.lastRetryAt }
  | none => store

/-- `SyncQueueManager.removeQueueItem`. -/
def removeQueueItem (store : QueueStore) (queueId : String) : QueueStore :=
  deleteKeyed QueueItem.id store queueId

/-- `SyncQueueManager.markAsSuccess`. -/
def markAsSuccess (store : QueueStore) (queueId : String) (now : Int) : QueueStore :=
  match findKeyed QueueItem.id store queueId with
  | some item =>
      putKeyed QueueItem.id store { item with status := "SUCCESS", updatedAt := some now }
  | none => store

/-- `SyncQueueManager.markAsFailed`: flip the stored item to `FAILED`, record
the error, increment `retryCount`, and — when the incremented count is still
below `maxRetries` — schedule `retrySync` on the mutated item after
`retryDelay * 2 ^ (retryCount - 1)` ms.  The returned pair is the new store
and the scheduled `(delay, item)` timer, `none` when nothing was scheduled. -/
def markAsFailed (store : QueueStore) (queueId errorMessage : String) (now : Int) :
    QueueStore × Option (Nat × QueueItem) :=
  match findKeyed QueueItem.id store queueId with
  | some item =>
      let item' : QueueItem :=
        { item with
          status := "FAILED"
          error := some errorMessage
          retryCount := item.retryCount + 1
          lastRetryAt := some now
          updatedAt := some now }
      let scheduled : Option (Nat × QueueItem) :=
        if item'.retryCount < maxRetries then
          some (retryDelay * 2 ^ (item'.retryCount - 1), item')
        else
          none
      (putKeyed QueueItem.id store item', scheduled)
  | none => (store, none)

/-- `SyncQueueManager.retrySync`, the deferred re-arm fired by the
`markAsFailed` timer: when the item carries a `localMemoId` whose memo still
exists and is not `synced`, reset the in-memory snapshot to
`PENDING`/`retryCount 0`/no error and hand it to `enqueue` — which stores it
under a *fresh* id with a fresh `createdAt`; the original record is left
untouched.  Returns the new queue store. -/
def retrySync (memos : MemoStore) (store : QueueStore) (queueItem : QueueItem)
    (freshId : String) (now : Int) : QueueStore :=
  match queueItem.localMemoId with
  | some lid =>
      match DbManager.getMemoByLocalId memos lid with
      | some localMemo =>
          if localMemo.syncStatus ≠ "synced" then
            (enqueue store
              { type := queueItem.type
                localMemoId := queueItem.localMemoId
                serverMemoId := queueItem.serverMemoId
                data := queueItem.data
                status := some "PENDING"
                originalQueueId := queueItem.originalQueueId
                idempotencyKey := queueItem.idempotencyKey }
              freshId now).1
          else store
      | none => store
  | none => store

/-- `SyncQueueManager.getPendingItems`: `index('status').getAll('PENDING')`. -/
def getPendingItems (store : QueueStore) : List QueueItem :=
  store.filter (fun item => item.status = "PENDING")

/-- `SyncQueueManager.getQueueItemsByLocalMemoId`:
`index('localMemoId').getAll(localMemoId)`. -/
def getQueueItemsByLocalMemoId (store : QueueStore) (localMemoId : String) :
    List QueueItem :=
  store.filter (fun item => item.localMemoId = some localMemoId)

/-- `SyncQueueManager.updateQueueItem`: `put` the given record back
unchanged (no timestamp is touched by this method). -/
def updateQueueItem (store : QueueStore) (queueItem : QueueItem) : QueueStore :=
  putKeyed QueueItem.id store queueItem

/-- `SyncQueueManager.getQueueItem`. -/
def getQueueItem (store : QueueStore) (queueId : String) : Option QueueItem :=
  findKeyed QueueItem.id store queueId

/-- `SyncQueueManager.getWaitingItems`: `index('status').getAll('WAITING')`. -/
def getWaitingItems (store : QueueStore) : List QueueItem :=
  store.filter (fun item => item.status = "WAITING")

/-- `SyncQueueManager.tryUpdateStatus`: compare-and-set on `status`; returns
whether the swap happened. -/
def tryUpdateStatus (store : QueueStore) (queueId expectedStatus newStatus : String)
    (now : Int) : QueueStore × Bool :=
  match findKeyed QueueItem.id store queueId with
  | some item =>
      if item.status = expectedStatus then
        (putKeyed QueueItem.id store
          { item with
            status := newStatus
            updatedAt := some now
            lastRetryAt := if newStatus = "SYNCING" then some now else item.lastRetryAt },
         true)
      else (store, false)
  | none => (store, false)

end SyncQueueManager

/-- The `memoId` / `bookId` argument of the facade-level operations: the
source distinguishes a UUID-shaped string (looked up by `localId`) from a
number (looked up through the `serverId` index). -/
inductive EntityId where
  | localId (lid : String)
  | serverId (sid : Nat)
  deriving DecidableEq, Repr

/-- A server memo document, as consumed by the two `saveServerMemoAsLocal`
implementations.  Optional fields are the ones the source guards with
`|| ...` defaults. -/
structure ServerMemo where
  id : Nat
  userBookId : Nat
  pageNumber : Option Nat
  content : String
  tags : Option (List String)
  memoStartTime : Option Int
  createdAt : Option Int
  updatedAt : Option Int
  deriving DecidableEq, Repr

namespace OfflineMemoService

/-- Result record of `OfflineMemoService.deleteMemo` (the `waiting` flag is
present only in the delete-while-syncing branch; elsewhere it is absent,
modelled as `false`). -/
structure DeleteMemoResult where
  deleted : Bool
  localOnly : Bool
  waiting : Bool
  deriving DecidableEq, Repr

/-- Memo lookup by either id shape, shared by `updateMemo`/`deleteMemo`. -/
def lookupMemo (memos : MemoStore) : EntityId → Option Memo
  | .localId lid => DbManager.getMemoByLocalId memos lid
  | .serverId sid => DbManager.getMemoByServerId memos sid

/-- `OfflineMemoService.deleteMemo` (src/js/services/offline-memo-service.js,
lines 218-298), modelled up to the point where the stores are written; the
fire-and-forget `syncPendingMemos` kick at the end is not part of the state
transition.  `freshId` is the id `enqueue` generates for the new queue item.
Branches, in source order: memo missing → throw; no `serverId` → delete the
row and its queued item immediately; `syncStatus` is `syncing` or
`syncing_update` → enqueue a `WAITING` DELETE pointing at the in-flight item
through `originalQueueId` and mark the memo `waiting`; otherwise → enqueue a
`PENDING` DELETE and mark the memo `pending`. -/
def deleteMemo (memos : MemoStore) (queue : QueueStore) (memoId : EntityId)
    (freshId : String) (now : Int) :
    Except String (MemoStore × QueueStore × DeleteMemoResult) :=
  match lookupMemo memos memoId with
  | none => .error "메모를 찾을 수 없습니다."
  | some localMemo =>
      if ¬ jsTruthyNat localMemo.serverId then
        let memos' := DbManager.deleteMemo memos localMemo.localId
        let queue' :=
          if jsTruthyStr localMemo.syncQueueId then
            SyncQueueManager.removeQueueItem queue (localMemo.syncQueueId.getD "")
          else queue
        .ok (memos', queue', { deleted := true, localOnly := true, waiting := false })
      else if localMemo.syncStatus = "syncing" ∨ localMemo.syncStatus = "syncing_update" then
        let (queue', queueItem) :=
          SyncQueueManager.enqueue queue
            { type := "DELETE"
              localMemoId := some localMemo.localId
              serverMemoId := localMemo.serverId
              data := { memoStartTime := none, content := none }
              status := some "WAITING"
              originalQueueId := localMemo.syncQueueId
              idempotencyKey := none }
            freshId now
        let memos' := DbManager.saveMemo memos
          { localMemo with
            syncStatus := "waiting", syncQueueId := some queueItem.id, updatedAt := now }
        .ok (memos', queue', { deleted := false, localOnly := false, waiting := true })
      else
        let (queue', queueItem) :=
          SyncQueueManager.enqueue queue
            { type := "DELETE"
              localMemoId := some localMemo.localId
              serverMemoId := localMemo.serverId
              data := { memoStartTime := none, content := none }
              status := none
              originalQueueId := none
              idempotencyKey := none }
            freshId now
        let memos' := DbManager.saveMemo memos
          { localMemo with
            syncStatus := "pending", syncQueueId := some queueItem.id, updatedAt := now }
        .ok (memos', queue', { deleted := false, localOnly := false, waiting := false })

/-- One iteration of the WAITING-promotion loop at the head of
`OfflineMemoService.syncPendingMemos`: look the `originalQueueId` up in the
current store and flip the waiting item to `PENDING` iff the original is in
`SUCCESS`. -/
def promoteStep (st : QueueStore) (waitingItem : QueueItem) : QueueStore :=
  match jsStrOrNull waitingItem.originalQueueId with
  | some oid =>
      match SyncQueueManager.getQueueItem st oid with
      | some originalItem =>
          if originalItem.status = "SUCCESS" then
            SyncQueueManager.updateQueueItem st { waitingItem with status := "PENDING" }
          else st
      | none => st
  | none => st

/-- The WAITING-promotion phase at the head of
`OfflineMemoService.syncPendingMemos`: for every item that was `WAITING`
when the pass started, flip it to `PENDING` iff its `originalQueueId`
resolves to an item in `SUCCESS`. -/
def promoteWaitingItems (queue : QueueStore) : QueueStore :=
  (SyncQueueManager.getWaitingItems queue).foldl promoteStep queue

/-- The order in which a single `OfflineMemoService.syncPendingMemos` pass
walks the queue: the `PENDING` items that carry a `localMemoId`, sorted by
`new Date(createdAt)` ascending. -/
def pendingMemoOrder (queue : QueueStore) : List QueueItem :=
  sortByKey (fun item => item.createdAt)
    ((SyncQueueManager.getPendingItems queue).filter
      (fun item => jsTruthyStr item.localMemoId))

/-- The per-item condition of the cascade loop in the CREATE branch of
`OfflineMemoService.syncQueueItem`: a queued UPDATE or DELETE whose
`serverMemoId` is still missing. -/
def cascadeCond (relatedItem : QueueItem) : Prop :=
  (relatedItem.type = "UPDATE" ∨ relatedItem.type = "DELETE")
    ∧ ¬ jsTruthyNat relatedItem.serverMemoId

instance : DecidablePred cascadeCond := fun relatedItem => by
  unfold cascadeCond
  infer_instance

/-- The patch the cascade loop applies: back-fill the freshly assigned
server id. -/
def cascadePatch (responseId : Nat) (relatedItem : QueueItem) : QueueItem :=
  { relatedItem with serverMemoId := some responseId }

/-- Result of the CREATE branch of `OfflineMemoService.syncQueueItem` on
a successful POST. -/
structure MemoCreateOutcome where
  memos : MemoStore
  queue : QueueStore
  sentIdempotencyKey : String
  deriving DecidableEq, Repr

/-- The CREATE branch of `OfflineMemoService.syncQueueItem`
(src/js/services/offline-memo-service.js, lines 480-533 plus the trailing
`markAsSuccess`), on the assumption that the POST succeeds and returns
`responseId`.  `genKey` is the UUID `generateLocalId()` would produce if the
item carries no idempotency key yet.  In source order: look the memo up,
mark it `syncing_create`, reuse or generate-and-persist the idempotency key,
POST with that key, write the server id into the memo, cascade the server id
into every queued UPDATE/DELETE with the same `localMemoId` and a missing
`serverMemoId`, apply the 7-day retention, and mark the queue item
`SUCCESS`. -/
def syncCreateMemoSuccess (memos : MemoStore) (queue : QueueStore)
    (queueItem : QueueItem) (genKey : String) (responseId : Nat) (now : Int) :
    Except String MemoCreateOutcome :=
  match queueItem.localMemoId with
  | none => .error "로컬 메모를 찾을 수 없습니다."
  | some lid =>
      match DbManager.getMemoByLocalId memos lid with
      | none => .error "로컬 메모를 찾을 수 없습니다."
      | some localMemo =>
          let memos1 := DbManager.saveMemo memos { localMemo with syncStatus := "syncing_create" }
          let sentKey :=
            match jsStrOrNull queueItem.idempotencyKey with
            | some k => k
            | none => genKey
          let queue1 :=
            match jsStrOrNull queueItem.idempotencyKey with
            | some _ => queue
            | none =>
                SyncQueueManager.updateQueueItem queue
                  { queueItem with idempotencyKey := some genKey }
          let memos2 := DbManager.updateMemoWithServerId memos1 lid responseId
          match DbManager.getMemoByLocalId memos2 lid with
          | none => .error "로컬 메모를 찾을 수 없습니다."
          | some localMemo2 =>
              let related := SyncQueueManager.getQueueItemsByLocalMemoId queue1 localMemo2.localId
              let queue2 := related.foldl
                (fun st relatedItem =>
                  if cascadeCond relatedItem then
                    SyncQueueManager.updateQueueItem st (cascadePatch responseId relatedItem)
                  else st)
                queue1
              let sevenDaysAgo := now - 7 * 86400000
              let memos3 :=
                if dateBefore localMemo2.memoStartTime sevenDaysAgo then
                  DbManager.deleteMemo memos2 localMemo2.localId
                else
                  DbManager.saveMemo memos2 { localMemo2 with syncStatus := "synced" }
              .ok
                { memos := memos3
                  queue := SyncQueueManager.markAsSuccess queue2 queueItem.id now
                  sentIdempotencyKey := sentKey }

/-- The UPDATE branch of `OfflineMemoService.syncQueueItem`
(src/js/services/offline-memo-service.js, lines 535-556 plus the trailing
`markAsSuccess`), on the assumption that the PUT succeeds: look the memo up,
require a `serverId`, mark it `syncing_update`, PUT, then mark the memo
`synced` and bump `updatedAt` — the row is kept unconditionally, with no
retention check. -/
def syncUpdateMemoSuccess (memos : MemoStore) (queue : QueueStore)
    (queueItem : QueueItem) (now : Int) :
    Except String (MemoStore × QueueStore) :=
  match queueItem.localMemoId with
  | none => .error "로컬 메모를 찾을 수 없습니다."
  | some lid =>
      match DbManager.getMemoByLocalId memos lid with
      | none => .error "로컬 메모를 찾을 수 없습니다."
      | some localMemo =>
          if ¬ jsTruthyNat localMemo.serverId then
            .error "서버 ID가 없어 수정할 수 없습니다."
          else
            let memos1 := DbManager.saveMemo memos { localMemo with syncStatus := "syncing_update" }
            let memos2 := DbManager.saveMemo memos1
              { localMemo with syncStatus := "synced", updatedAt := now }
            .ok (memos2, SyncQueueManager.markAsSuccess queue queueItem.id now)

/-- `OfflineMemoService.saveServerMemoAsLocal`
(src/js/services/offline-memo-service.js, lines 325-358): upsert the server
document into `offline_memos`, with **no** recency filter; when a row with
the same `serverId` exists its fields are refreshed but its `syncStatus` is
left untouched. -/
def saveServerMemoAsLocal (memos : MemoStore) (serverMemo : ServerMemo)
    (freshLocalId : String) (now : Int) : MemoStore × Memo :=
  match DbManager.getMemoByServerId memos serverMemo.id with
  | some existingMemo =>
      let m : Memo :=
        { existingMemo with
          content := serverMemo.content
          tags := serverMemo.tags.getD []
          pageNumber := serverMemo.pageNumber
          memoStartTime := serverMemo.memoStartTime <|> serverMemo.createdAt
          updatedAt := now }
      (DbManager.saveMemo memos m, m)
  | none =>
      let m : Memo :=
        { localId := freshLocalId
          serverId := some serverMemo.id
          userBookId := serverMemo.userBookId
          pageNumber := serverMemo.pageNumber
          content := serverMemo.content
          tags := serverMemo.tags.getD []
          memoStartTime := serverMemo.memoStartTime <|> serverMemo.createdAt
          syncStatus := "synced"
          createdAt := serverMemo.createdAt.getD now
          updatedAt := serverMemo.updatedAt.getD now
          syncQueueId := none }
      (DbManager.saveMemo memos m, m)

end OfflineMemoService

namespace MemoOperationHelper

/-- The network-error test inside `MemoOperationHelper.handleServerError`
(src/js/utils/memo-operation-helper.js, lines 97-111): a substring check of
the error message against `Failed to fetch`, `NetworkError` and `network`,
or the browser reporting offline.  The HTTP status of the failed response is
never consulted. -/
def isNetworkError (errorMessage : String) (navigatorOnLine : Bool) : Bool :=
  includesStr errorMessage "Failed to fetch"
    || includesStr errorMessage "NetworkError"
    || includesStr errorMessage "network"
    || !navigatorOnLine

/-- A thrown JS error as the facade sees it: its `message`, and the HTTP
status of the response it came from when it was produced by the API client
(`none` for transport-level failures). -/
structure JsError where
  message : String
  status : Option Nat
  deriving DecidableEq, Repr

/-- Outcome of `MemoOperationHelper.handleServerError`: either the offline
fallback operation ran, or the original error was re-thrown unchanged. -/
inductive HandleOutcome where
  | fellBack
  | rethrown (e : JsError)
  deriving DecidableEq, Repr

/-- `MemoOperationHelper.handleServerError`: run the fallback iff
`isNetworkError`, otherwise re-throw the original error. -/
def handleServerError (e : JsError) (navigatorOnLine : Bool) : HandleOutcome :=
  if isNetworkError e.message navigatorOnLine then .fellBack else .rethrown e

/-- `MemoOperationHelper.saveServerMemoAsLocal`
(src/js/utils/memo-operation-helper.js, lines 138-191): refuse (return
`null`, store nothing) when the document's `memoStartTime || createdAt` is
older than 7 days; otherwise upsert, and when a row with the same `serverId`
exists refresh its fields **and** force `syncStatus` to `synced`. -/
def saveServerMemoAsLocal (memos : MemoStore) (serverMemo : ServerMemo)
    (freshLocalId : String) (now : Int) : MemoStore × Option Memo :=
  let sevenDaysAgo := now - 7 * 86400000
  let memoDate := serverMemo.memoStartTime <|> serverMemo.createdAt
  if dateBefore memoDate sevenDaysAgo then
    (memos, none)
  else
    match DbManager.getMemoByServerId memos serverMemo.id with
    | some existingMemo =>
        let m : Memo :=
          { existingMemo with
            content := serverMemo.content
            tags := serverMemo.tags.getD []
            pageNumber := serverMemo.pageNumber
            memoStartTime := serverMemo.memoStartTime <|> serverMemo.createdAt
            updatedAt := now
            syncStatus := "synced" }
        (DbManager.saveMemo memos m, some m)
    | none =>
        let m : Memo :=
          { localId := freshLocalId
            serverId := some serverMemo.id
            userBookId := serverMemo.userBookId
            pageNumber := serverMemo.pageNumber
            content := serverMemo.content
            tags := serverMemo.tags.getD []
            memoStartTime := serverMemo.memoStartTime <|> serverMemo.createdAt
            syncStatus := "synced"
            createdAt := serverMemo.createdAt.getD now
            updatedAt := serverMemo.updatedAt.getD now
            syncQueueId := none }
        (DbManager.saveMemo memos m, some m)

end MemoOperationHelper

namespace BookOperationHelper

/-- The network-error test inside `BookOperationHelper.handleServerError`
(src/js/utils/book-operation-helper.js, lines 110-124); textually the same
predicate as the memo helper's. -/
def isNetworkError (errorMessage : String) (navigatorOnLine : Bool) : Bool :=
  includesStr errorMessage "Failed to fetch"
    || includesStr errorMessage "NetworkError"
    || includesStr errorMessage "network"
    || !navigatorOnLine

end BookOperationHelper

namespace OfflineBookService

/-- Result record of `OfflineBookService.removeBookFromShelf`. -/
structure RemoveBookResult where
  deleted : Bool
  localOnly : Bool
  deriving DecidableEq, Repr

/-- Book lookup by either id shape, shared by `updateBook` and
`removeBookFromShelf`. -/
def lookupBook (books : BookStore) : EntityId → Option Book
  | .localId lid => DbManager.getBookByLocalId books lid
  | .serverId sid => books.find? (fun b => b.serverId = some sid)

/-- `OfflineBookService.removeBookFromShelf`
(src/js/services/offline-book-service.js, lines 225-281).  Unlike the memo
service's `deleteMemo`, there is **no** delete-while-syncing branch: a book
with a `serverId` always gets a plain DELETE queue entry enqueued with the
default `PENDING` status, whatever its `syncStatus`.  (The call hands
`localBookId`/`serverBookId` to `SyncQueueManager.enqueue`, which copies
only the memo-shaped fields, so the stored record carries neither.) -/
def removeBookFromShelf (books : BookStore) (queue : QueueStore) (bookId : EntityId)
    (freshId : String) (now : Int) :
    Except String (BookStore × QueueStore × RemoveBookResult) :=
  match lookupBook books bookId with
  | none => .error "내 서재 정보를 찾을 수 없습니다."
  | some localBook =>
      if ¬ jsTruthyNat localBook.serverId then
        let books' := DbManager.deleteBook books localBook.localId
        let queue' :=
          if jsTruthyStr localBook.syncQueueId then
            SyncQueueManager.removeQueueItem queue (localBook.syncQueueId.getD "")
          else queue
        .ok (books', queue', { deleted := true, localOnly := true })
      else
        let (queue', queueItem) :=
          SyncQueueManager.enqueue queue
            { type := "DELETE"
              localMemoId := none
              serverMemoId := none
              data := { memoStartTime := none, content := none }
              status := none
              originalQueueId := none
              idempotencyKey := none }
            freshId now
        let books' := DbManager.saveBook books
          { localBook with
            syncStatus := "pending", syncQueueId := some queueItem.id, updatedAt := now }
        .ok (books', queue', { deleted := false, localOnly := false })

/-- The order in which a single `OfflineBookService.syncPendingBooks` pass
walks the queue: the `PENDING` items that carry a `localBookId`, sorted by
`new Date(createdAt)` ascending. -/
def pendingBookOrder (queue : QueueStore) : List QueueItem :=
  sortByKey (fun item => item.createdAt)
    ((SyncQueueManager.getPendingItems queue).filter
      (fun item => jsTruthyStr item.localBookId))

/-- Result of the CREATE branch of `OfflineBookService.syncQueueItem` on a
successful POST. -/
structure BookCreateOutcome where
  books : BookStore
  queue : QueueStore
  sentIdempotencyKey : String
  deriving DecidableEq, Repr

/-- The CREATE branch of `OfflineBookService.syncQueueItem`
(src/js/services/offline-book-service.js, lines 460-492 plus the trailing
`markAsSuccess`), on the assumption that the POST succeeds and returns
`responseUserBookId`: look the book up, mark it `syncing_create`, reuse or
generate-and-persist the idempotency key, POST, write the server id into the
book, mark it `synced`, and mark the queue item `SUCCESS`.  In contrast to
the memo driver there is **no** cascade over related queue items: no other
queue record is touched. -/
def syncCreateBookSuccess (books : BookStore) (queue : QueueStore)
    (queueItem : QueueItem) (genKey : String) (responseUserBookId : Nat) (now : Int) :
    Except String BookCreateOutcome :=
  match queueItem.localBookId with
  | none => .error "로컬 내 서재 정보를 찾을 수 없습니다."
  | some lid =>
      match DbManager.getBookByLocalId books lid with
      | none => .error "로컬 내 서재 정보를 찾을 수 없습니다."
      | some localBook =>
          let books1 := DbManager.saveBook books { localBook with syncStatus := "syncing_create" }
          let sentKey :=
            match jsStrOrNull queueItem.idempotencyKey with
            | some k => k
            | none => genKey
          let queue1 :=
            match jsStrOrNull queueItem.idempotencyKey with
            | some _ => queue
            | none =>
                SyncQueueManager.updateQueueItem queue
                  { queueItem with idempotencyKey := some genKey }
          let books2 := DbManager.updateBookWithServerId books1 lid responseUserBookId
          match DbManager.getBookByLocalId books2 lid with
          | none => .error "로컬 내 서재 정보를 찾을 수 없습니다."
          | some localBook2 =>
              let books3 := DbManager.saveBook books2 { localBook2 with syncStatus := "synced" }
              .ok
                { books := books3
                  queue := SyncQueueManager.markAsSuccess queue1 queueItem.id now
                  sentIdempotencyKey := sentKey }

end OfflineBookService

namespace ServiceWorkerSync

/-- The sort key of the background Service Worker's `syncPendingMemos`
(src/unnamed/part_001, lines 392-397): `a.data?.memoStartTime || a.createdAt`
— the payload's `memoStartTime` when the payload carries one, else the
item's `createdAt`. -/
def workerSortKey (item : QueueItem) : Int :=
  (item.data.memoStartTime).getD item.createdAt

/-- The order in which a single Service Worker sync pass replays the pending
items it fetched: ascending in `workerSortKey`. -/
def workerOrder (pendingQueueItems : List QueueItem) : List QueueItem :=
  sortByKey workerSortKey pendingQueueItems

/-- The queue record built by the Service Worker's `handleFailedPostRequest`
(src/unnamed/part_001, lines 149-173) for an intercepted POST that failed on
the network: a CREATE outbox item with **no** `idempotencyKey` property at
all (and no `localMemoId`). -/
def handleFailedPostItem (requestBody : Payload) (requestUrl : String)
    (freshId : String) (now : Int) : QueueItem :=
  { id := freshId
    type := "CREATE"
    localMemoId := none
    serverMemoId := none
    localBookId := none
    serverBookId := none
    data := requestBody
    status := "PENDING"
    originalQueueId := none
    idempotencyKey := none
    retryCount := 0
    error := none
    createdAt := now
    updatedAt := none
    lastRetryAt := none
    requestUrl := some requestUrl
    requestMethod := some "POST" }

/-- A `fetch` call as issued by the Service Worker's `replayRequest`. -/
structure FetchCall where
  url : String
  method : String
  headers : List (String × String)
  hasBody : Bool
  deriving DecidableEq, Repr

/-- The Service Worker's `replayRequest` (src/unnamed/part_001): rebuild the
original request from the queue record and send it.  The header list is
always exactly `Content-Type: application/json` — in particular no
`Idempotency-Key` header is ever attached, whatever the item stores. -/
def replayRequest (item : QueueItem) : FetchCall :=
  let sid :=
    match item.serverMemoId with
    | some n => toString n
    | none => "null"
  if item.type = "CREATE" then
    { url := "/api/v1/memos", method := "POST"
      headers := [("Content-Type", "application/json")], hasBody := true }
  else if item.type = "UPDATE" then
    { url := "/api/v1/memos/" ++ sid, method := "PUT"
      headers := [("Content-Type", "application/json")], hasBody := true }
  else if item.type = "DELETE" then
    { url := "/api/v1/memos/" ++ sid, method := "DELETE"
      headers := [("Content-Type", "application/json")], hasBody := false }
  else
    { url := jsStrOrDefault item.requestUrl "/api/v1/memos"
      method := jsStrOrDefault item.requestMethod "POST"
      headers := [("Content-Type", "application/json")], hasBody := true }

end ServiceWorkerSync

namespace IndexedDBManagerV2

/-- A secondary index created by `createIndex(name, keyPath, { unique })`. -/
structure IndexSpec where
  name : String
  keyPath : String
  unique : Bool
  deriving DecidableEq, Repr

/-- An object store created by `createObjectStore(name, { keyPath })`
together with its indexes. -/
structure StoreSpec where
  name : String
  keyPath : String
  indexes : List IndexSpec
  deriving DecidableEq, Repr

/-- `this.dbName` of the version-2 `IndexedDBManager` (the copy whose class
also carries the `offline_books` CRUD used by the engine's book service;
src/js/state/auth-state.js, lines 137-193). -/
def dbName : String := "reading-tracker"

/-- `this.version` of the version-2 `IndexedDBManager`. -/
def dbVersion : Nat := 2

/-- The `onupgradeneeded` handler of `IndexedDBManager.init` (version-2
copy): create each of `offline_memos`, `sync_queue` and `offline_books`
with its indexes unless the database already contains a store of that
name, in this source order. -/
def onUpgradeNeeded (dbStores : List StoreSpec) : List StoreSpec :=
  let s1 :=
    if dbStores.any (fun st => st.name = "offline_memos") then dbStores
    else dbStores ++
      [{ name := "offline_memos", keyPath := "localId"
         indexes :=
           [{ name := "syncStatus", keyPath := "syncStatus", unique := false },
            { name := "userBookId", keyPath := "userBookId", unique := false },
            { name := "memoStartTime", keyPath := "memoStartTime", unique := false },
            { name := "serverId", keyPath := "serverId", unique := false }] }]
  let s2 :=
    if s1.any (fun st => st.name = "sync_queue") then s1
    else s1 ++
      [{ name := "sync_queue", keyPath := "id"
         indexes :=
           [{ name := "status", keyPath := "status", unique := false },
            { name := "localMemoId", keyPath := "localMemoId", unique := false },
            { name := "localBookId", keyPath := "localBookId", unique := false }] }]
  let s3 :=
    if s2.any (fun st => st.name = "offline_books") then s2
    else s2 ++
      [{ name := "offline_books", keyPath := "localId"
         indexes :=
           [{ name := "syncStatus", keyPath := "syncStatus", unique := false },
            { name := "serverId", keyPath := "serverId", unique := false },
            { name := "category", keyPath := "category", unique := false }] }]
  s3

end IndexedDBManagerV2

namespace RequestQueueManager

/-- The sequential drain loop of `RequestQueueManager.processQueue`
(src/js/utils/request-queue-manager.js, lines 60-100), started by the
`sync:complete` subscription.  The queue list is in arrival order (`enqueue`
pushes to the back).  Every loop iteration first re-reads
`syncStateManager.isSyncing` — modelled by the oracle `syncingAt n` giving
the flag's value observed at the `n`-th iteration — and stops when it is
set; otherwise it shifts the head, runs it, and settles its promise before
looking at the next item.  The result is the pair of the executed items, in
execution order, and the items left in the queue. -/
def drainFrom {α : Type} (syncingAt : Nat → Bool) : Nat → List α → List α × List α
  | _, [] => ([], [])
  | n, x :: xs =>
      if syncingAt n then ([], x :: xs)
      else
        let r := drainFrom syncingAt (n + 1) xs
        (x :: r.1, r.2)

/-- One `processQueue` run over the arrival-ordered queue. -/
def processQueue {α : Type} (syncingAt : Nat → Bool) (queue : List α) :
    List α × List α :=
  drainFrom syncingAt 0 queue

end RequestQueueManager

/-! Helper lemmas about the Request Gate drain loop. -/

theorem processQueue_append {α : Type} (syncingAt : Nat → Bool) (q : List α) :
    (RequestQueueManager.processQueue syncingAt q).1
      ++ (RequestQueueManager.processQueue syncingAt q).2 = q := by
  show (RequestQueueManager.drainFrom syncingAt 0 q).1
      ++ (RequestQueueManager.drainFrom syncingAt 0 q).2 = q
  generalize 0 = n
  induction q generalizing n with
  | nil => rfl
  | cons x xs ih =>
      unfold RequestQueueManager.drainFrom
      by_cases h : syncingAt n
      · simp [h]
      · simp [h, ih]

theorem processQueue_of_not_syncing {α : Type} (syncingAt : Nat → Bool) (q : List α)
    (h : ∀ n, syncingAt n = false) :
    RequestQueueManager.processQueue syncingAt q = (q, []) := by
  show RequestQueueManager.drainFrom syncingAt 0 q = (q, [])
  generalize 0 = n
  induction q generalizing n with
  | nil => rfl
  | cons x xs ih =>
      unfold RequestQueueManager.drainFrom
      simp [h n, ih]

/-- Decidable equality for `Except`, used to evaluate the embedded sync
steps on concrete inputs. -/
instance {e a : Type} [DecidableEq e] [DecidableEq a] : DecidableEq (Except e a) := fun x y =>
  match x, y with
  | .ok v, .ok w =>
      if h : v = w then isTrue (by rw [h]) else isFalse (fun hc => h (Except.ok.inj hc))
  | .error v, .error w =>
      if h : v = w then isTrue (by rw [h]) else isFalse (fun hc => h (Except.error.inj hc))
  | .ok _, .error _ => isFalse (fun hc => Except.noConfusion hc)
  | .error _, .ok _ => isFalse (fun hc => Except.noConfusion hc)

/-! The claim theorems. -/

/-- C8: initialising the Durable Store used by the engine (the version-2
`IndexedDBManager`, the copy whose class also carries the `offline_books`
CRUD the book service calls) opens the IndexedDB database named
`reading-tracker` at schema version 2, and its upgrade handler, run on a
fresh database, creates exactly the three object stores `offline_memos`
(keyPath `localId`; indexes `syncStatus`, `userBookId`, `memoStartTime`,
`serverId`), `sync_queue` (keyPath `id`; indexes `status`, `localMemoId`,
`localBookId`) and `offline_books` (keyPath `localId`; indexes `syncStatus`,
`serverId`, `category`). -/
theorem C8_durable_store_schema :
    IndexedDBManagerV2.dbName = "reading-tracker" ∧
    IndexedDBManagerV2.dbVersion = 2 ∧
    IndexedDBManagerV2.onUpgradeNeeded [] =
      [{ name := "offline_memos", keyPath := "localId"
         indexes :=
           [{ name := "syncStatus", keyPath := "syncStatus", unique := false },
            { name := "userBookId", keyPath := "userBookId", unique := false },
            { name := "memoStartTime", keyPath := "memoStartTime", unique := false },
            { name := "serverId", keyPath := "serverId", unique := false }] },
       { name := "sync_queue", keyPath := "id"
         indexes :=
           [{ name := "status", keyPath := "status", unique := false },
            { name := "localMemoId", keyPath := "localMemoId", unique := false },
            { name := "localBookId", keyPath := "localBookId", unique := false }] },
       { name := "offline_books", keyPath := "localId"
         indexes :=
           [{ name := "syncStatus", keyPath := "syncStatus", unique := false },
            { name := "serverId", keyPath := "serverId", unique := false },
            { name := "category", keyPath := "category", unique := false }] }] := by
  refine ⟨rfl, rfl, ?_⟩
  decide

/-- C9: operations deferred through the Request Gate while a sync cycle is
active are drained one at a time in FIFO arrival order once `sync:complete`
fires: the executed prefix followed by the remaining items is exactly the
arrival-ordered queue (no reordering, batching, coalescing or loss); when no
new sync cycle interferes the whole queue is executed in arrival order; and
when a new sync cycle starts mid-drain the drain pauses, and the next
`sync:complete` drain continues with the untouched remainder so that the two
executed runs plus the leftover still spell out the arrival order. -/
theorem C9_gate_fifo {α : Type} (syncingAt nextSyncingAt : Nat → Bool) (queue : List α) :
    (RequestQueueManager.processQueue syncingAt queue).1
        ++ (RequestQueueManager.processQueue syncingAt queue).2 = queue ∧
    ((∀ n, syncingAt n = false) →
        RequestQueueManager.processQueue syncingAt queue = (queue, [])) ∧
    (RequestQueueManager.processQueue syncingAt queue).1
        ++ ((RequestQueueManager.processQueue nextSyncingAt
              (RequestQueueManager.processQueue syncingAt queue).2).1
            ++ (RequestQueueManager.processQueue nextSyncingAt
                (RequestQueueManager.processQueue syncingAt queue).2).2) = queue := by
  refine ⟨processQueue_append syncingAt queue,
    fun h => processQueue_of_not_syncing syncingAt queue h, ?_⟩
  rw [processQueue_append nextSyncingAt, processQueue_append syncingAt]

/-- C9 witness: with no sync cycle interfering, a three-element queue is
drained whole, in arrival order. -/
theorem C9_gate_fifo_witness :
    RequestQueueManager.processQueue (fun _ => false) [1, 2, 3] = ([1, 2, 3], ([] : List Nat)) :=
  (C9_gate_fifo (fun _ => false) (fun _ => false) [1, 2, 3]).2.1 (fun _ => rfl)

/-- The network-class failure test exactly as §4.G of the spec words it:
message matching `Failed to fetch` or `NetworkError`, or
`navigator.onLine` false, or a server 5xx status.  This definition follows
the spec's words (not the source) and exists to be compared against the
code's `isNetworkError`. -/
def specNetworkFailure (e : MemoOperationHelper.JsError) (navigatorOnLine : Bool) : Bool :=
  includesStr e.message "Failed to fetch"
    || includesStr e.message "NetworkError"
    || !navigatorOnLine
    || (match e.status with
        | some s => decide (500 ≤ s ∧ s ≤ 599)
        | none => false)

/-- C6 counterexample: a server 500 response whose error message is
`Internal Server Error`, with the browser online, is network-class per the
claim (server 5xx), yet `handleServerError` re-throws it instead of falling
back — the code never looks at the status and the message matches none of
its substrings. -/
theorem C6_counterexample :
    specNetworkFailure { message := "Internal Server Error", status := some 500 } true = true ∧
    MemoOperationHelper.handleServerError
        { message := "Internal Server Error", status := some 500 } true
      = MemoOperationHelper.HandleOutcome.rethrown
          { message := "Internal Server Error", status := some 500 } ∧
    BookOperationHelper.isNetworkError "Internal Server Error" true = false := by
  refine ⟨by decide, by decide, by decide⟩

/-- C6 (amended): the facade write operations fall back to the offline path
exactly when `error.message` contains `Failed to fetch`, `NetworkError` or
`network`, or `navigator.onLine` is false; the response status is never
consulted (a 5xx whose message matches none of the substrings is re-thrown,
like any other error, unchanged); and the memo and book helpers use the
same classification. -/
theorem C6_fallback_on_network_error (e : MemoOperationHelper.JsError)
    (navigatorOnLine : Bool) :
    (MemoOperationHelper.handleServerError e navigatorOnLine
        = MemoOperationHelper.HandleOutcome.fellBack
      ↔ (includesStr e.message "Failed to fetch"
          || includesStr e.message "NetworkError"
          || includesStr e.message "network"
          || !navigatorOnLine) = true) ∧
    (MemoOperationHelper.handleServerError e navigatorOnLine
        = MemoOperationHelper.HandleOutcome.fellBack
      ∨ MemoOperationHelper.handleServerError e navigatorOnLine
        = MemoOperationHelper.HandleOutcome.rethrown e) ∧
    BookOperationHelper.isNetworkError = MemoOperationHelper.isNetworkError := by
  unfold MemoOperationHelper.handleServerError
  by_cases hcond : MemoOperationHelper.isNetworkError e.message navigatorOnLine = true
  · rw [if_pos hcond]
    exact ⟨⟨fun _ => hcond, fun _ => rfl⟩, Or.inl rfl, rfl⟩
  · rw [if_neg hcond]
    refine ⟨⟨fun h => absurd h (by simp), fun h => absurd h hcond⟩, Or.inr rfl, rfl⟩

/-- C6 witness: a plain network failure while online falls back, and the
predicate instance is discharged concretely. -/
theorem C6_fallback_on_network_error_witness :
    MemoOperationHelper.handleServerError { message := "TypeError: Failed to fetch", status := none } true
      = MemoOperationHelper.HandleOutcome.fellBack :=
  (C6_fallback_on_network_error { message := "TypeError: Failed to fetch", status := none } true).1.mpr
    (by decide)

/-- The two queue items of the C4 counterexample: the first arrived earlier
(`createdAt` 1000) but its payload carries a later `memoStartTime` than the
second's, so the Service Worker's comparator inverts their arrival order. -/
def c4first : QueueItem :=
  { id := "sync-1", type := "CREATE", localMemoId := some "M1"
    serverMemoId := none, localBookId := none, serverBookId := none
    data := { memoStartTime := some 5000, content := some "a" }
    status := "PENDING", originalQueueId := none, idempotencyKey := some "K1"
    retryCount := 0, error := none, createdAt := 1000, updatedAt := none
    lastRetryAt := none, requestUrl := none, requestMethod := none }

/-- Second C4 item: arrived later (`createdAt` 2000), payload stamped
earlier (`memoStartTime` 100). -/
def c4second : QueueItem :=
  { id := "sync-2", type := "CREATE", localMemoId := some "M2"
    serverMemoId := none, localBookId := none, serverBookId := none
    data := { memoStartTime := some 100, content := some "b" }
    status := "PENDING", originalQueueId := none, idempotencyKey := some "K2"
    retryCount := 0, error := none, createdAt := 2000, updatedAt := none
    lastRetryAt := none, requestUrl := none, requestMethod := none }

/-- C4 counterexample: on two `PENDING` items the background Service Worker
pass replays the later-arrived item first, because it sorts by
`data.memoStartTime || createdAt`, not by `createdAt`; the processed
sequence has strictly descending `createdAt` stamps. -/
theorem C4_counterexample :
    c4first.status = "PENDING" ∧ c4second.status = "PENDING" ∧
    c4first.createdAt < c4second.createdAt ∧
    ServiceWorkerSync.workerOrder [c4first, c4second] = [c4second, c4first] ∧
    ¬ List.Pairwise (fun a b => a.createdAt ≤ b.createdAt)
        (ServiceWorkerSync.workerOrder [c4first, c4second]) := by
  refine ⟨rfl, rfl, by decide, by decide, ?_⟩
  intro h
  rw [show ServiceWorkerSync.workerOrder [c4first, c4second] = [c4second, c4first] by decide] at h
  have := (List.pairwise_cons.mp h).1 c4first (by simp)
  revert this
  decide

/-- C4 (amended): within a single pass, the foreground memo driver and the
foreground shelf driver claim and process their pending items in
nondecreasing `createdAt` order (the sorted list is a permutation of the
filtered pending items); the background Service Worker instead processes its
pending items in nondecreasing `data.memoStartTime || createdAt` order,
which coincides with `createdAt` order only for items whose payloads carry
no `memoStartTime`. -/
theorem C4_claim_order (queue : QueueStore) (pendingQueueItems : List QueueItem) :
    List.Pairwise (fun a b => a.createdAt ≤ b.createdAt)
        (OfflineMemoService.pendingMemoOrder queue) ∧
    List.Pairwise (fun a b => a.createdAt ≤ b.createdAt)
        (OfflineBookService.pendingBookOrder queue) ∧
    List.Perm (OfflineMemoService.pendingMemoOrder queue)
        ((SyncQueueManager.getPendingItems queue).filter
          (fun item => jsTruthyStr item.localMemoId)) ∧
    List.Pairwise
        (fun a b => ServiceWorkerSync.workerSortKey a ≤ ServiceWorkerSync.workerSortKey b)
        (ServiceWorkerSync.workerOrder pendingQueueItems) ∧
    List.Perm (ServiceWorkerSync.workerOrder pendingQueueItems) pendingQueueItems := by
  exact ⟨pairwise_sortByKey _ _, pairwise_sortByKey _ _, perm_sortByKey _ _,
    pairwise_sortByKey _ _, perm_sortByKey _ _⟩

/-- The server memo of the C10 counterexample: `memoStartTime` at the epoch,
8 days before the test clock `c10now`. -/
def c10serverMemo : ServerMemo :=
  { id := 42, userBookId := 7, pageNumber := some 3, content := "hi"
    tags := some ["summary"], memoStartTime := some 0, createdAt := some 0
    updatedAt := none }

/-- The test clock of the C10 counterexample: 8 days after the epoch. -/
def c10now : Int := 8 * 86400000

/-- C10 counterexample: on an empty store and a server memo 8 days old, the
facade helper's `saveServerMemoAsLocal` refuses the document (returns `null`
and stores nothing) while the service's method stores it — the two
implementations are not extensionally equal. -/
theorem C10_counterexample :
    MemoOperationHelper.saveServerMemoAsLocal [] c10serverMemo "L1" c10now
      = (([] : MemoStore), none) ∧
    (OfflineMemoService.saveServerMemoAsLocal [] c10serverMemo "L1" c10now).1
      ≠ ([] : MemoStore) := by
  refine ⟨by decide, by decide⟩

/-- C10 (amended): the two `saveServerMemoAsLocal` implementations agree
exactly on server memos whose `memoStartTime || createdAt` is within the
last 7 days and whose matching local row — when one exists — is already
`synced`; outside that overlap they differ: the helper refuses documents
older than 7 days and forces an existing row's `syncStatus` to `synced`,
while the service stores regardless of age and leaves the row's
`syncStatus` untouched. -/
theorem C10_saveServerMemo_agreement (memos : MemoStore) (sm : ServerMemo)
    (freshLocalId : String) (now : Int)
    (hfresh : dateBefore (sm.memoStartTime <|> sm.createdAt) (now - 7 * 86400000) = false)
    (hsynced : ∀ m ∈ memos, m.serverId = some sm.id → m.syncStatus = "synced") :
    MemoOperationHelper.saveServerMemoAsLocal memos sm freshLocalId now
      = ((OfflineMemoService.saveServerMemoAsLocal memos sm freshLocalId now).1,
         some (OfflineMemoService.saveServerMemoAsLocal memos sm freshLocalId now).2) := by
  unfold MemoOperationHelper.saveServerMemoAsLocal OfflineMemoService.saveServerMemoAsLocal
  simp only [hfresh, Bool.false_eq_true, if_false]
  cases hfind : DbManager.getMemoByServerId memos sm.id with
  | none => rfl
  | some m =>
      have hmem : m ∈ memos := List.mem_of_find?_eq_some hfind
      have hsid : m.serverId = some sm.id := by
        simpa using List.find?_some hfind
      have hst : m.syncStatus = "synced" := hsynced m hmem hsid
      cases m
      simp only [Memo.syncStatus] at hst
      subst hst
      rfl

/-- C10 witness: on the empty store and a fresh server memo the two
implementations produce the same store and the same stored record. -/
theorem C10_saveServerMemo_agreement_witness :
    MemoOperationHelper.saveServerMemoAsLocal []
        { id := 42, userBookId := 7, pageNumber := some 3, content := "hi"
          tags := some ["summary"], memoStartTime := some 0, createdAt := some 0
          updatedAt := none } "L1" 1000
      = ((OfflineMemoService.saveServerMemoAsLocal []
            { id := 42, userBookId := 7, pageNumber := some 3, content := "hi"
              tags := some ["summary"], memoStartTime := some 0, createdAt := some 0
              updatedAt := none } "L1" 1000).1,
         some (OfflineMemoService.saveServerMemoAsLocal []
            { id := 42, userBookId := 7, pageNumber := some 3, content := "hi"
              tags := some ["summary"], memoStartTime := some 0, createdAt := some 0
              updatedAt := none } "L1" 1000).2) :=
  C10_saveServerMemo_agreement [] _ "L1" 1000 (by decide)
    (fun m hm _ => absurd hm (List.not_mem_nil m))

/-- The local memo of the C5 counterexample: synced to server id 10, its
`memoStartTime` 8 days older than the test clock `c5now`. -/
def c5memo : Memo :=
  { localId := "M1", serverId := some 10, userBookId := 7, pageNumber := some 3
    content := "a", tags := [], memoStartTime := some 0, syncStatus := "pending"
    createdAt := 0, updatedAt := 0, syncQueueId := some "q1" }

/-- The claimed UPDATE queue item of the C5 counterexample. -/
def c5item : QueueItem :=
  { id := "q1", type := "UPDATE", localMemoId := some "M1", serverMemoId := some 10
    localBookId := none, serverBookId := none
    data := { memoStartTime := some 0, content := some "a" }
    status := "SYNCING", originalQueueId := none, idempotencyKey := none
    retryCount := 0, error := none, createdAt := 0, updatedAt := none
    lastRetryAt := none, requestUrl := none, requestMethod := none }

/-- The test clock of the C5 counterexample: 8 days after the epoch. -/
def c5now : Int := 8 * 86400000

/-- C5 counterexample: a successful UPDATE of a memo whose `memoStartTime`
is older than 7 days keeps the row in the local store (with `syncStatus`
`synced`) — the UPDATE branch of `syncQueueItem` applies no retention,
contradicting the claim that the row is deleted after UPDATE as well. -/
theorem C5_counterexample :
    dateBefore c5memo.memoStartTime (c5now - 7 * 86400000) = true ∧
    (OfflineMemoService.syncUpdateMemoSuccess [c5memo] [c5item] c5item c5now).toOption.map
        (fun r => (DbManager.getMemoByLocalId r.1 "M1").map Memo.syncStatus)
      = some (some "synced") := by
  refine ⟨by decide, by decide⟩

/-- C5 (amended): the 7-day retention runs only after a successful CREATE —
there the row is deleted exactly when `memoStartTime` is older than 7 days
and otherwise kept as `synced` (with the new server id) — while after a
successful UPDATE the row is always kept with `syncStatus` `synced` and a
bumped `updatedAt`, whatever its age. -/
theorem C5_retention_after_create_only
    (memos : MemoStore) (queue : QueueStore) (item : QueueItem) (genKey : String)
    (rid : Nat) (now : Int) (lid : String) (m0 : Memo)
    (rC : OfflineMemoService.MemoCreateOutcome)
    (hlid : item.localMemoId = some lid)
    (hm0 : DbManager.getMemoByLocalId memos lid = some m0)
    (hC : OfflineMemoService.syncCreateMemoSuccess memos queue item genKey rid now = .ok rC)
    (memosU : MemoStore) (queueU : QueueStore) (itemU : QueueItem) (nowU : Int)
    (lidU : String) (mU : Memo) (rU : MemoStore × QueueStore)
    (hlidU : itemU.localMemoId = some lidU)
    (hmU : DbManager.getMemoByLocalId memosU lidU = some mU)
    (hU : OfflineMemoService.syncUpdateMemoSuccess memosU queueU itemU nowU = .ok rU) :
    (dateBefore m0.memoStartTime (now - 7 * 86400000) = true →
        DbManager.getMemoByLocalId rC.memos lid = none) ∧
    (dateBefore m0.memoStartTime (now - 7 * 86400000) = false →
        DbManager.getMemoByLocalId rC.memos lid
          = some { m0 with serverId := some rid, syncStatus := "synced" }) ∧
    DbManager.getMemoByLocalId rU.1 lidU
      = some { mU with syncStatus := "synced", updatedAt := nowU } := by
  have hkl : Memo.localId m0 = lid := findKeyed_key _ _ _ _ hm0
  have hklU : Memo.localId mU = lidU := findKeyed_key _ _ _ _ hmU
  have hput1 : DbManager.getMemoByLocalId
      (DbManager.saveMemo memos { m0 with syncStatus := "syncing_create" }) lid
      = some { m0 with syncStatus := "syncing_create" } := by
    rw [← hkl]
    exact findKeyed_putKeyed Memo.localId memos _
  have hput2 : DbManager.getMemoByLocalId
      (DbManager.saveMemo (DbManager.saveMemo memos { m0 with syncStatus := "syncing_create" })
        { m0 with serverId := some rid, syncStatus := "synced" }) lid
      = some { m0 with serverId := some rid, syncStatus := "synced" } := by
    rw [← hkl]
    exact findKeyed_putKeyed Memo.localId _ _
  simp only [OfflineMemoService.syncCreateMemoSuccess, hlid, hm0] at hC
  simp only [DbManager.updateMemoWithServerId, hput1] at hC
  simp only [hput2] at hC
  refine ⟨?_, ?_, ?_⟩
  · intro hold
    rcases hkey : jsStrOrNull item.idempotencyKey with _ | k <;>
      · simp only [hkey, hold, if_true] at hC
        rw [← (Except.ok.injEq _ _).mp hC, ← hkl]
        exact findKeyed_deleteKeyed Memo.localId _ _
  · intro hfresh
    rcases hkey : jsStrOrNull item.idempotencyKey with _ | k <;>
      · simp only [hkey, hfresh, Bool.false_eq_true, if_false] at hC
        rw [← (Except.ok.injEq _ _).mp hC]
        rw [← hkl]
        exact findKeyed_putKeyed Memo.localId _ _
  · simp only [OfflineMemoService.syncUpdateMemoSuccess, hlidU, hmU] at hU
    by_cases hs : jsTruthyNat mU.serverId = true
    · simp only [hs, not_true, if_neg, if_false] at hU
      rw [← (Except.ok.injEq _ _).mp hU]
      rw [← hklU]
      exact findKeyed_putKeyed Memo.localId _ _
    · simp only [hs, if_pos, if_true] at hU
      cases hU

/-- The concrete CREATE outcome used by the C5 witness. -/
def c5createOutcome : OfflineMemoService.MemoCreateOutcome :=
  (OfflineMemoService.syncCreateMemoSuccess [c5memo] [] c5item "G" 42 c5now).toOption.getD
    { memos := [], queue := [], sentIdempotencyKey := "" }

/-- The concrete UPDATE outcome used by the C5 witness. -/
def c5updateOutcome : MemoStore × QueueStore :=
  (OfflineMemoService.syncUpdateMemoSuccess [c5memo] [c5item] c5item c5now).toOption.getD
    ([], [])

/-- C5 witness: the amended retention statement applied to the concrete
8-day-old memo — the CREATE branch drops the row, the UPDATE branch keeps
it as `synced`. -/
theorem C5_retention_after_create_only_witness :
    (dateBefore c5memo.memoStartTime (c5now - 7 * 86400000) = true →
        DbManager.getMemoByLocalId c5createOutcome.memos "M1" = none) ∧
    (dateBefore c5memo.memoStartTime (c5now - 7 * 86400000) = false →
        DbManager.getMemoByLocalId c5createOutcome.memos "M1"
          = some { c5memo with serverId := some 42, syncStatus := "synced" }) ∧
    DbManager.getMemoByLocalId c5updateOutcome.1 "M1"
      = some { c5memo with syncStatus := "synced", updatedAt := c5now } :=
  C5_retention_after_create_only [c5memo] [] c5item "G" 42 c5now "M1" c5memo
    c5createOutcome rfl (by decide) (by decide)
    [c5memo] [c5item] c5item c5now "M1" c5memo c5updateOutcome rfl (by decide) (by decide)

/-- The SYNCING queue item of the C1 counterexample. -/
def c1item : QueueItem :=
  { id := "q1", type := "CREATE", localMemoId := some "M1", serverMemoId := none
    localBookId := none, serverBookId := none
    data := { memoStartTime := none, content := some "hi" }
    status := "SYNCING", originalQueueId := none, idempotencyKey := some "K"
    retryCount := 0, error := none, createdAt := 0, updatedAt := none
    lastRetryAt := none, requestUrl := none, requestMethod := none }

/-- The memo the C1 counterexample's queue item refers to (unsynced, so the
re-arm condition holds when the timer fires). -/
def c1memo : Memo :=
  { localId := "M1", serverId := none, userBookId := 7, pageNumber := none
    content := "hi", tags := [], memoStartTime := some 0, syncStatus := "failed"
    createdAt := 0, updatedAt := 0, syncQueueId := some "q1" }

/-- C1 counterexample: after `markAsFailed` (retryCount 0 → 1, delay 5000 ms
scheduled) and the scheduled `retrySync` firing, the stored item `q1` is
still `FAILED` — the re-arm did not flip that same item back to `PENDING`;
instead a fresh clone was enqueued under the new id `q2`. -/
theorem C1_counterexample :
    ((SyncQueueManager.markAsFailed [c1item] "q1" "boom" 100).2.map Prod.fst = some 5000) ∧
    ((SyncQueueManager.getQueueItem
        (SyncQueueManager.retrySync [c1memo]
          (SyncQueueManager.markAsFailed [c1item] "q1" "boom" 100).1
          ((SyncQueueManager.markAsFailed [c1item] "q1" "boom" 100).2.getD (0, c1item)).2
          "q2" 5100) "q1").map QueueItem.status
      = some "FAILED") ∧
    ((SyncQueueManager.getQueueItem
        (SyncQueueManager.retrySync [c1memo]
          (SyncQueueManager.markAsFailed [c1item] "q1" "boom" 100).1
          ((SyncQueueManager.markAsFailed [c1item] "q1" "boom" 100).2.getD (0, c1item)).2
          "q2" 5100) "q2").map (fun i => (i.status, i.retryCount))
      = some ("PENDING", 0)) := by
  refine ⟨by decide, by decide, by decide⟩

/-- C1 (amended): `markAsFailed` flips the stored item to `FAILED`,
increments its `retryCount` and records the error; when the incremented
count is below 3 it schedules a re-arm after `5000 * 2^(retryCount-1)` ms
(`retryCount` the incremented value) which — when the referenced memo still
exists unsynced — enqueues a fresh `PENDING` copy of the item under a new id
with `retryCount` reset to 0 and the same type, refs, payload and
idempotency key, while the original record remains `FAILED`; at the cap
(incremented count ≥ 3) nothing is scheduled, so no further automatic retry
fires for the item. -/
theorem C1_markAsFailed_backoff
    (store : QueueStore) (queueId errorMessage : String) (now : Int) (item : QueueItem)
    (hfind : SyncQueueManager.getQueueItem store queueId = some item)
    (memos : MemoStore) (freshId : String) (now2 : Int) (lid : String) (m : Memo)
    (hlid : item.localMemoId = some lid)
    (hm : DbManager.getMemoByLocalId memos lid = some m)
    (hunsynced : m.syncStatus ≠ "synced")
    (hfresh : freshId ≠ queueId) :
    SyncQueueManager.getQueueItem (SyncQueueManager.markAsFailed store queueId errorMessage now).1
        queueId
      = some { item with
               status := "FAILED", error := some errorMessage,
               retryCount := item.retryCount + 1, lastRetryAt := some now,
               updatedAt := some now } ∧
    (SyncQueueManager.markAsFailed store queueId errorMessage now).2
      = (if item.retryCount + 1 < 3 then
          some (5000 * 2 ^ (item.retryCount + 1 - 1),
            { item with
              status := "FAILED", error := some errorMessage,
              retryCount := item.retryCount + 1, lastRetryAt := some now,
              updatedAt := some now })
         else none) ∧
    SyncQueueManager.getQueueItem
        (SyncQueueManager.retrySync memos
          (SyncQueueManager.markAsFailed store queueId errorMessage now).1
          { item with
            status := "FAILED", error := some errorMessage,
            retryCount := item.retryCount + 1, lastRetryAt := some now,
            updatedAt := some now }
          freshId now2) queueId
      = some { item with
               status := "FAILED", error := some errorMessage,
               retryCount := item.retryCount + 1, lastRetryAt := some now,
               updatedAt := some now } ∧
    (SyncQueueManager.getQueueItem
        (SyncQueueManager.retrySync memos
          (SyncQueueManager.markAsFailed store queueId errorMessage now).1
          { item with
            status := "FAILED", error := some errorMessage,
            retryCount := item.retryCount + 1, lastRetryAt := some now,
            updatedAt := some now }
          freshId now2) freshId).map
        (fun i => (i.status, i.retryCount, i.type, i.localMemoId, i.serverMemoId,
                   i.idempotencyKey, i.createdAt))
      = some ("PENDING", 0, item.type, item.localMemoId, jsNumOrNull item.serverMemoId,
              jsStrOrNull item.idempotencyKey, now2) := by
  have hid : QueueItem.id item = queueId := by
    have := List.find?_some hfind
    simpa using this
  have hmf : SyncQueueManager.markAsFailed store queueId errorMessage now
      = (putKeyed QueueItem.id store
          { item with
            status := "FAILED", error := some errorMessage,
            retryCount := item.retryCount + 1, lastRetryAt := some now,
            updatedAt := some now },
         if item.retryCount + 1 < SyncQueueManager.maxRetries then
           some (SyncQueueManager.retryDelay * 2 ^ (item.retryCount + 1 - 1),
             { item with
               status := "FAILED", error := some errorMessage,
               retryCount := item.retryCount + 1, lastRetryAt := some now,
               updatedAt := some now })
         else none) := by
    unfold SyncQueueManager.markAsFailed
    rw [show findKeyed QueueItem.id store queueId = some item from hfind]
  have hlookup1 : SyncQueueManager.getQueueItem
      (SyncQueueManager.markAsFailed store queueId errorMessage now).1 queueId
      = some { item with
               status := "FAILED", error := some errorMessage,
               retryCount := item.retryCount + 1, lastRetryAt := some now,
               updatedAt := some now } := by
    rw [hmf, ← hid]
    exact findKeyed_putKeyed QueueItem.id store _
  have hretry : SyncQueueManager.retrySync memos
      (SyncQueueManager.markAsFailed store queueId errorMessage now).1
      { item with
        status := "FAILED", error := some errorMessage,
        retryCount := item.retryCount + 1, lastRetryAt := some now,
        updatedAt := some now }
      freshId now2
      = putKeyed QueueItem.id (SyncQueueManager.markAsFailed store queueId errorMessage now).1
          { id := freshId, type := item.type, localMemoId := item.localMemoId
            serverMemoId := jsNumOrNull item.serverMemoId, localBookId := none
            serverBookId := none, data := item.data, status := "PENDING"
            originalQueueId := jsStrOrNull item.originalQueueId
            idempotencyKey := jsStrOrNull item.idempotencyKey, retryCount := 0
            error := none, createdAt := now2, updatedAt := none, lastRetryAt := none
            requestUrl := none, requestMethod := none } := by
    unfold SyncQueueManager.retrySync
    simp only [hlid, hm]
    rw [if_pos hunsynced]
    rfl
  refine ⟨hlookup1, ?_, ?_, ?_⟩
  · rw [hmf]
    rfl
  · rw [hretry]
    show findKeyed QueueItem.id (putKeyed QueueItem.id _ _) queueId = _
    rw [findKeyed_putKeyed_ne]
    · exact hlookup1
    · exact Ne.symm hfresh
  · rw [hretry]
    have h2 := findKeyed_putKeyed QueueItem.id
      (SyncQueueManager.markAsFailed store queueId errorMessage now).1
      { id := freshId, type := item.type, localMemoId := item.localMemoId
        serverMemoId := jsNumOrNull item.serverMemoId, localBookId := none
        serverBookId := none, data := item.data, status := "PENDING"
        originalQueueId := jsStrOrNull item.originalQueueId
        idempotencyKey := jsStrOrNull item.idempotencyKey, retryCount := 0
        error := none, createdAt := now2, updatedAt := none, lastRetryAt := none
        requestUrl := none, requestMethod := none }
    rw [show QueueItem.id
        { id := freshId, type := item.type, localMemoId := item.localMemoId
          serverMemoId := jsNumOrNull item.serverMemoId, localBookId := none
          serverBookId := none, data := item.data, status := "PENDING"
          originalQueueId := jsStrOrNull item.originalQueueId
          idempotencyKey := jsStrOrNull item.idempotencyKey, retryCount := 0
          error := none, createdAt := now2, updatedAt := none, lastRetryAt := none
          requestUrl := none, requestMethod := none } = freshId from rfl] at h2
    show (findKeyed QueueItem.id (putKeyed QueueItem.id _ _) freshId).map _ = _
    rw [h2]
    rfl

/-- C1 witness: the amended statement at the concrete item and memo of the
counterexample. -/
theorem C1_markAsFailed_backoff_witness :
    SyncQueueManager.getQueueItem (SyncQueueManager.markAsFailed [c1item] "q1" "boom" 100).1 "q1"
      = some { c1item with
               status := "FAILED", error := some "boom",
               retryCount := 1, lastRetryAt := some 100, updatedAt := some 100 } ∧
    (SyncQueueManager.markAsFailed [c1item] "q1" "boom" 100).2
      = (if c1item.retryCount + 1 < 3 then
          some (5000 * 2 ^ (c1item.retryCount + 1 - 1),
            { c1item with
              status := "FAILED", error := some "boom",
              retryCount := 1, lastRetryAt := some 100, updatedAt := some 100 })
         else none) ∧
    SyncQueueManager.getQueueItem
        (SyncQueueManager.retrySync [c1memo]
          (SyncQueueManager.markAsFailed [c1item] "q1" "boom" 100).1
          { c1item with
            status := "FAILED", error := some "boom",
            retryCount := 1, lastRetryAt := some 100, updatedAt := some 100 }
          "q2" 5100) "q1"
      = some { c1item with
               status := "FAILED", error := some "boom",
               retryCount := 1, lastRetryAt := some 100, updatedAt := some 100 } ∧
    (SyncQueueManager.getQueueItem
        (SyncQueueManager.retrySync [c1memo]
          (SyncQueueManager.markAsFailed [c1item] "q1" "boom" 100).1
          { c1item with
            status := "FAILED", error := some "boom",
            retryCount := 1, lastRetryAt := some 100, updatedAt := some 100 }
          "q2" 5100) "q2").map
        (fun i => (i.status, i.retryCount, i.type, i.localMemoId, i.serverMemoId,
                   i.idempotencyKey, i.createdAt))
      = some ("PENDING", 0, c1item.type, c1item.localMemoId, jsNumOrNull c1item.serverMemoId,
              jsStrOrNull c1item.idempotencyKey, 5100) := by
  have h := C1_markAsFailed_backoff [c1item] "q1" "boom" 100 c1item (by decide)
    [c1memo] "q2" 5100 "M1" c1memo rfl (by decide) (by decide) (by decide)
  exact h

/-! Helper lemmas about the WAITING-promotion loop. -/

theorem promoteStep_lookup_ne (st : QueueStore) (a : QueueItem) (k : String)
    (h : a.id ≠ k) :
    SyncQueueManager.getQueueItem (OfflineMemoService.promoteStep st a) k
      = SyncQueueManager.getQueueItem st k := by
  unfold OfflineMemoService.promoteStep
  cases h1 : jsStrOrNull a.originalQueueId with
  | none => simp only [h1]
  | some oid =>
      simp only [h1]
      cases h2 : SyncQueueManager.getQueueItem st oid with
      | none => simp only [h2]
      | some originalItem =>
          simp only [h2]
          by_cases hs : originalItem.status = "SUCCESS"
          · rw [if_pos hs]
            show findKeyed QueueItem.id (putKeyed QueueItem.id st _) k = _
            exact findKeyed_putKeyed_ne _ _ _ _ (fun hh => h hh.symm)
          · rw [if_neg hs]

theorem promote_fold_preserve (lst : List QueueItem) (st : QueueStore) (k : String)
    (h : ∀ a ∈ lst, a.id ≠ k) :
    SyncQueueManager.getQueueItem (lst.foldl OfflineMemoService.promoteStep st) k
      = SyncQueueManager.getQueueItem st k := by
  induction lst generalizing st with
  | nil => rfl
  | cons a lst ih =>
      rw [List.foldl_cons, ih _ (fun b hb => h b (List.mem_cons_of_mem a hb)),
        promoteStep_lookup_ne st a k (h a (List.mem_cons_self a lst))]

theorem promote_fold_promotes (w : QueueItem) (oid : String)
    (hoid : jsStrOrNull w.originalQueueId = some oid) :
    ∀ (lst : List QueueItem) (st : QueueStore),
      w ∈ lst → (lst.map QueueItem.id).Nodup →
      (∀ a ∈ lst, a.id ≠ oid) →
      (SyncQueueManager.getQueueItem st oid).map QueueItem.status = some "SUCCESS" →
      SyncQueueManager.getQueueItem (lst.foldl OfflineMemoService.promoteStep st) w.id
        = some { w with status := "PENDING" } := by
  intro lst
  induction lst with
  | nil =>
      intro st hmem _ _ _
      cases hmem
  | cons a lst ih =>
      intro st hmem hdist hnotin horig
      rw [List.map_cons, List.nodup_cons] at hdist
      rcases List.mem_cons.mp hmem with rfl | hmem'
      · rcases Option.map_eq_some'.mp horig with ⟨originalItem, horigeq, hostat⟩
        rw [List.foldl_cons]
        have hstep : OfflineMemoService.promoteStep st w
            = putKeyed QueueItem.id st { w with status := "PENDING" } := by
          unfold OfflineMemoService.promoteStep
          simp only [hoid, horigeq]
          rw [if_pos hostat]
          rfl
        rw [hstep, promote_fold_preserve lst _ w.id
          (fun b hb hbid => hdist.1 (hbid ▸ List.mem_map.mpr ⟨b, hb, rfl⟩))]
        have h2 := findKeyed_putKeyed QueueItem.id st { w with status := "PENDING" }
        rwa [show QueueItem.id { w with status := "PENDING" } = w.id from rfl] at h2
      · rw [List.foldl_cons]
        refine ih _ hmem' hdist.2 (fun b hb => hnotin b (List.mem_cons_of_mem a hb)) ?_
        rw [promoteStep_lookup_ne st a oid (hnotin a (List.mem_cons_self a lst))]
        exact horig

/-- The in-flight CREATE item of the C3 counterexample (status `SYNCING`). -/
def c3create : QueueItem :=
  { id := "q1", type := "CREATE", localMemoId := some "M1", serverMemoId := none
    localBookId := none, serverBookId := none
    data := { memoStartTime := none, content := some "hi" }
    status := "SYNCING", originalQueueId := none, idempotencyKey := some "K"
    retryCount := 0, error := none, createdAt := 0, updatedAt := none
    lastRetryAt := none, requestUrl := none, requestMethod := none }

/-- The memo of the C3 counterexample: its CREATE is in flight
(`syncing_create`, no server id yet). -/
def c3memo : Memo :=
  { localId := "M1", serverId := none, userBookId := 7, pageNumber := none
    content := "hi", tags := [], memoStartTime := some 0, syncStatus := "syncing_create"
    createdAt := 0, updatedAt := 0, syncQueueId := some "q1" }

/-- C3 counterexample: deleting a memo whose CREATE is in flight
(`syncing_create`, `serverId` still null) removes the memo row and the
in-flight outbox item immediately and enqueues nothing — no WAITING DELETE
with `originalQueueId` is created, contradicting the claim for in-flight
CREATEs. -/
theorem C3_counterexample :
    c3memo.syncStatus = "syncing_create" ∧
    c3memo.syncQueueId = some c3create.id ∧
    c3create.status = "SYNCING" ∧ c3create.type = "CREATE" ∧
    OfflineMemoService.deleteMemo [c3memo] [c3create] (EntityId.localId "M1") "q2" 100
      = .ok (([] : MemoStore), ([] : QueueStore),
          { deleted := true, localOnly := true, waiting := false }) := by
  refine ⟨rfl, rfl, rfl, rfl, by decide⟩

/-- C3 (amended): the delete-while-in-flight protocol exists only for memos
and only when the entity's `syncStatus` is `syncing` or `syncing_update`
(an in-flight UPDATE): then `deleteMemo` enqueues a DELETE with status
`WAITING` and `originalQueueId` pointing at the in-flight item, keeps the
memo row (marked `waiting`) and leaves the in-flight outbox item untouched;
once the in-flight item reaches `SUCCESS`, the promotion phase of the next
memo sync pass flips the WAITING item to `PENDING`.  A delete during an
in-flight CREATE instead removes the row and the queued item at once (the
entity still has no server id), and a shelf-entry delete never enqueues
WAITING: for a book with a server id the DELETE is enqueued as `PENDING`
whatever the book's `syncStatus`. -/
theorem C3_delete_while_syncing
    (memos : MemoStore) (queue : QueueStore) (lid freshId : String) (now : Int)
    (m : Memo) (r : MemoStore × QueueStore × OfflineMemoService.DeleteMemoResult)
    (hm : DbManager.getMemoByLocalId memos lid = some m)
    (hserv : jsTruthyNat m.serverId = true)
    (hsync : m.syncStatus = "syncing" ∨ m.syncStatus = "syncing_update")
    (hr : OfflineMemoService.deleteMemo memos queue (EntityId.localId lid) freshId now = .ok r)
    (queueP : QueueStore) (wid oid : String) (w : QueueItem)
    (hnodupQ : (queueP.map QueueItem.id).Nodup)
    (hwfind : SyncQueueManager.getQueueItem queueP wid = some w)
    (hwst : w.status = "WAITING")
    (hoid : jsStrOrNull w.originalQueueId = some oid)
    (horig : (SyncQueueManager.getQueueItem queueP oid).map QueueItem.status = some "SUCCESS")
    (books : BookStore) (queueB : QueueStore) (bid : EntityId) (fidB : String) (nowB : Int)
    (b : Book) (rB : BookStore × QueueStore × OfflineBookService.RemoveBookResult)
    (hbfind : OfflineBookService.lookupBook books bid = some b)
    (hbserv : jsTruthyNat b.serverId = true)
    (hrB : OfflineBookService.removeBookFromShelf books queueB bid fidB nowB = .ok rB) :
    r.2.2 = { deleted := false, localOnly := false, waiting := true } ∧
    ((SyncQueueManager.getQueueItem r.2.1 freshId).map
        (fun i => (i.type, i.status, i.originalQueueId, i.localMemoId, i.serverMemoId))
      = some ("DELETE", "WAITING", jsStrOrNull m.syncQueueId, some m.localId,
          jsNumOrNull m.serverId)) ∧
    DbManager.getMemoByLocalId r.1 lid
      = some { m with syncStatus := "waiting", syncQueueId := some freshId, updatedAt := now } ∧
    (∀ qid, qid ≠ freshId →
        SyncQueueManager.getQueueItem r.2.1 qid = SyncQueueManager.getQueueItem queue qid) ∧
    SyncQueueManager.getQueueItem (OfflineMemoService.promoteWaitingItems queueP) wid
      = some { w with status := "PENDING" } ∧
    rB.2.2 = { deleted := false, localOnly := false } ∧
    ((SyncQueueManager.getQueueItem rB.2.1 fidB).map (fun i => (i.type, i.status))
      = some ("DELETE", "PENDING")) := by
  have hkl : Memo.localId m = lid := findKeyed_key _ _ _ _ hm
  have hval : OfflineMemoService.deleteMemo memos queue (EntityId.localId lid) freshId now
      = .ok
        (putKeyed Memo.localId memos
          { m with syncStatus := "waiting", syncQueueId := some freshId, updatedAt := now },
         putKeyed QueueItem.id queue
          { id := freshId, type := "DELETE", localMemoId := some m.localId
            serverMemoId := jsNumOrNull m.serverId, localBookId := none
            serverBookId := none, data := { memoStartTime := none, content := none }
            status := "WAITING", originalQueueId := jsStrOrNull m.syncQueueId
            idempotencyKey := none, retryCount := 0, error := none, createdAt := now
            updatedAt := none, lastRetryAt := none, requestUrl := none
            requestMethod := none },
         { deleted := false, localOnly := false, waiting := true }) := by
    unfold OfflineMemoService.deleteMemo OfflineMemoService.lookupMemo
    simp only [hm]
    rw [if_neg (by simp [hserv]), if_pos hsync]
    rfl
  rw [hval] at hr
  obtain rfl := (Except.ok.injEq _ _).mp hr
  have hvalB : OfflineBookService.removeBookFromShelf books queueB bid fidB nowB
      = .ok
        (putKeyed Book.localId books
          { b with syncStatus := "pending", syncQueueId := some fidB, updatedAt := nowB },
         putKeyed QueueItem.id queueB
          { id := fidB, type := "DELETE", localMemoId := none, serverMemoId := none
            localBookId := none, serverBookId := none
            data := { memoStartTime := none, content := none }
            status := "PENDING", originalQueueId := none, idempotencyKey := none
            retryCount := 0, error := none, createdAt := nowB, updatedAt := none
            lastRetryAt := none, requestUrl := none, requestMethod := none },
         { deleted := false, localOnly := false }) := by
    unfold OfflineBookService.removeBookFromShelf
    simp only [hbfind]
    rw [if_neg (by simp [hbserv])]
    rfl
  rw [hvalB] at hrB
  obtain rfl := (Except.ok.injEq _ _).mp hrB
  refine ⟨rfl, ?_, ?_, ?_, ?_, rfl, ?_⟩
  · have h2 := findKeyed_putKeyed QueueItem.id queue
      { id := freshId, type := "DELETE", localMemoId := some m.localId
        serverMemoId := jsNumOrNull m.serverId, localBookId := none
        serverBookId := none, data := { memoStartTime := none, content := none }
        status := "WAITING", originalQueueId := jsStrOrNull m.syncQueueId
        idempotencyKey := none, retryCount := 0, error := none, createdAt := now
        updatedAt := none, lastRetryAt := none, requestUrl := none
        requestMethod := none }
    show (findKeyed QueueItem.id (putKeyed QueueItem.id queue _) freshId).map _ = _
    rw [show freshId = QueueItem.id
        { id := freshId, type := "DELETE", localMemoId := some m.localId
          serverMemoId := jsNumOrNull m.serverId, localBookId := none
          serverBookId := none, data := { memoStartTime := none, content := none }
          status := "WAITING", originalQueueId := jsStrOrNull m.syncQueueId
          idempotencyKey := none, retryCount := 0, error := none, createdAt := now
          updatedAt := none, lastRetryAt := none, requestUrl := none
          requestMethod := none } from rfl, h2]
    rfl
  · show findKeyed Memo.localId (putKeyed Memo.localId memos _) lid = _
    rw [← hkl]
    exact findKeyed_putKeyed Memo.localId memos _
  · intro qid hqid
    show findKeyed QueueItem.id (putKeyed QueueItem.id queue _) qid = _
    exact findKeyed_putKeyed_ne _ _ _ _ hqid
  · have hwid : QueueItem.id w = wid := findKeyed_key _ _ _ _ hwfind
    have hwq : w ∈ queueP := findKeyed_mem _ _ _ _ hwfind
    rcases Option.map_eq_some'.mp horig with ⟨originalItem, horigeq, hostat⟩
    have horigmem : originalItem ∈ queueP := findKeyed_mem _ _ _ _ horigeq
    have horigid : QueueItem.id originalItem = oid := findKeyed_key _ _ _ _ horigeq
    have hwmem : w ∈ SyncQueueManager.getWaitingItems queueP := by
      unfold SyncQueueManager.getWaitingItems
      exact List.mem_filter.mpr ⟨hwq, by simp [hwst]⟩
    have hdist : ((SyncQueueManager.getWaitingItems queueP).map QueueItem.id).Nodup :=
      List.Nodup.sublist (List.Sublist.map _ (List.filter_sublist queueP)) hnodupQ
    have hnotin : ∀ a ∈ SyncQueueManager.getWaitingItems queueP, a.id ≠ oid := by
      intro a ha haid
      have haq : a ∈ queueP := List.mem_of_mem_filter ha
      have hast : a.status = "WAITING" := by
        have := (List.mem_filter.mp ha).2
        simpa using this
      have : a = originalItem :=
        nodupKeys_eq QueueItem.id queueP hnodupQ a originalItem haq horigmem
          (haid.trans horigid.symm)
      rw [this] at hast
      rw [hast] at hostat
      exact absurd hostat (by decide)
    rw [← hwid]
    exact promote_fold_promotes w oid hoid (SyncQueueManager.getWaitingItems queueP)
      queueP hwmem hdist hnotin horig
  · have h2 := findKeyed_putKeyed QueueItem.id queueB
      { id := fidB, type := "DELETE", localMemoId := none, serverMemoId := none
        localBookId := none, serverBookId := none
        data := { memoStartTime := none, content := none }
        status := "PENDING", originalQueueId := none, idempotencyKey := none
        retryCount := 0, error := none, createdAt := nowB, updatedAt := none
        lastRetryAt := none, requestUrl := none, requestMethod := none }
    show (findKeyed QueueItem.id (putKeyed QueueItem.id queueB _) fidB).map _ = _
    rw [show fidB = QueueItem.id
        { id := fidB, type := "DELETE", localMemoId := none, serverMemoId := none
          localBookId := none, serverBookId := none
          data := { memoStartTime := none, content := none }
          status := "PENDING", originalQueueId := none, idempotencyKey := none
          retryCount := 0, error := none, createdAt := nowB, updatedAt := none
          lastRetryAt := none, requestUrl := none, requestMethod := none } from rfl, h2]
    rfl

/-- The memo of the C3 witness: synced to server id 9, its UPDATE in flight. -/
def c3wMemo : Memo :=
  { localId := "MW", serverId := some 9, userBookId := 1, pageNumber := none
    content := "x", tags := [], memoStartTime := some 0, syncStatus := "syncing_update"
    createdAt := 0, updatedAt := 0, syncQueueId := some "qU" }

/-- The in-flight UPDATE item of the C3 witness. -/
def c3wItem : QueueItem :=
  { id := "qU", type := "UPDATE", localMemoId := some "MW", serverMemoId := some 9
    localBookId := none, serverBookId := none
    data := { memoStartTime := none, content := some "x" }
    status := "SYNCING", originalQueueId := none, idempotencyKey := none
    retryCount := 0, error := none, createdAt := 0, updatedAt := none
    lastRetryAt := none, requestUrl := none, requestMethod := none }

/-- The delete-while-syncing outcome of the C3 witness. -/
def c3wOutcome : MemoStore × QueueStore × OfflineMemoService.DeleteMemoResult :=
  (OfflineMemoService.deleteMemo [c3wMemo] [c3wItem] (EntityId.localId "MW") "qD" 50).toOption.getD
    ([], [], { deleted := false, localOnly := false, waiting := false })

/-- The SUCCESS original item of the C3 witness promotion scenario. -/
def c3succ : QueueItem :=
  { id := "qO", type := "CREATE", localMemoId := some "MW", serverMemoId := none
    localBookId := none, serverBookId := none
    data := { memoStartTime := none, content := some "x" }
    status := "SUCCESS", originalQueueId := none, idempotencyKey := some "K"
    retryCount := 0, error := none, createdAt := 0, updatedAt := none
    lastRetryAt := none, requestUrl := none, requestMethod := none }

/-- The WAITING item of the C3 witness promotion scenario. -/
def c3wait : QueueItem :=
  { id := "qW", type := "DELETE", localMemoId := some "MW", serverMemoId := some 9
    localBookId := none, serverBookId := none
    data := { memoStartTime := none, content := none }
    status := "WAITING", originalQueueId := some "qO", idempotencyKey := none
    retryCount := 0, error := none, createdAt := 1, updatedAt := none
    lastRetryAt := none, requestUrl := none, requestMethod := none }

/-- The shelf entry of the C3 witness: synced to server id 5, its UPDATE in
flight. -/
def c3book : Book :=
  { localId := "B1", serverId := some 5, bookId := none, isbn := "i", title := "t"
    author := "a", publisher := "p", description := none, coverUrl := none
    totalPages := none, mainGenre := none, pubDate := none, category := "Reading"
    expectation := none, lastReadPage := none, lastReadAt := none
    readingFinishedDate := none, purchaseType := none, rating := none, review := none
    syncStatus := "syncing_update", createdAt := 0, updatedAt := 0
    syncQueueId := some "qBU" }

/-- The shelf-delete outcome of the C3 witness. -/
def c3bookOutcome : BookStore × QueueStore × OfflineBookService.RemoveBookResult :=
  (OfflineBookService.removeBookFromShelf [c3book] [] (EntityId.localId "B1") "qBD" 60).toOption.getD
    ([], [], { deleted := false, localOnly := false })

/-- C3 witness: the amended statement at a concrete in-flight UPDATE (memo
and shelf) and a concrete WAITING item whose original reached SUCCESS. -/
theorem C3_delete_while_syncing_witness :
    c3wOutcome.2.2 = { deleted := false, localOnly := false, waiting := true } ∧
    ((SyncQueueManager.getQueueItem c3wOutcome.2.1 "qD").map
        (fun i => (i.type, i.status, i.originalQueueId, i.localMemoId, i.serverMemoId))
      = some ("DELETE", "WAITING", jsStrOrNull c3wMemo.syncQueueId, some c3wMemo.localId,
          jsNumOrNull c3wMemo.serverId)) ∧
    DbManager.getMemoByLocalId c3wOutcome.1 "MW"
      = some { c3wMemo with
               syncStatus := "waiting", syncQueueId := some "qD", updatedAt := 50 } ∧
    (∀ qid, qid ≠ "qD" →
        SyncQueueManager.getQueueItem c3wOutcome.2.1 qid
          = SyncQueueManager.getQueueItem [c3wItem] qid) ∧
    SyncQueueManager.getQueueItem (OfflineMemoService.promoteWaitingItems [c3succ, c3wait]) "qW"
      = some { c3wait with status := "PENDING" } ∧
    c3bookOutcome.2.2 = { deleted := false, localOnly := false } ∧
    ((SyncQueueManager.getQueueItem c3bookOutcome.2.1 "qBD").map (fun i => (i.type, i.status))
      = some ("DELETE", "PENDING")) :=
  C3_delete_while_syncing [c3wMemo] [c3wItem] "MW" "qD" 50 c3wMemo c3wOutcome
    (by decide) (by decide) (by decide) (by decide)
    [c3succ, c3wait] "qW" "qO" c3wait (by decide) (by decide) (by decide) (by decide) (by decide)
    [c3book] [] (EntityId.localId "B1") "qBD" 60 c3book c3bookOutcome
    (by decide) (by decide) (by decide)

/-! Helper lemmas about `markAsSuccess` and the unfolded CREATE branch. -/

theorem markAsSuccess_lookup_ne (st : QueueStore) (qid k : String) (now : Int)
    (h : k ≠ qid) :
    SyncQueueManager.getQueueItem (SyncQueueManager.markAsSuccess st qid now) k
      = SyncQueueManager.getQueueItem st k := by
  unfold SyncQueueManager.markAsSuccess
  cases h2 : findKeyed QueueItem.id st qid with
  | none => simp only [h2]
  | some y =>
      simp only [h2]
      have hy : QueueItem.id y = qid := findKeyed_key _ _ _ _ h2
      show findKeyed QueueItem.id (putKeyed QueueItem.id st _) k = _
      exact findKeyed_putKeyed_ne _ _ _ _ (fun hh => h (hh.trans hy))

theorem markAsSuccess_lookup_self (st : QueueStore) (qid : String) (now : Int)
    (y : QueueItem) (h : findKeyed QueueItem.id st qid = some y) :
    SyncQueueManager.getQueueItem (SyncQueueManager.markAsSuccess st qid now) qid
      = some { y with status := "SUCCESS", updatedAt := some now } := by
  unfold SyncQueueManager.markAsSuccess
  simp only [h]
  have hy : QueueItem.id y = qid := findKeyed_key _ _ _ _ h
  show findKeyed QueueItem.id (putKeyed QueueItem.id st _) qid = _
  rw [← hy]
  exact findKeyed_putKeyed QueueItem.id st _

/-- The fully unfolded value of the memo CREATE success step, given that the
item's memo lookup succeeds: a calculation lemma used to settle the cascade
and idempotency-key claims. -/
theorem syncCreateMemoSuccess_unfold
    (memos : MemoStore) (queue : QueueStore) (item : QueueItem) (genKey : String)
    (rid : Nat) (now : Int) (lid : String) (m0 : Memo)
    (hlid : item.localMemoId = some lid)
    (hm0 : DbManager.getMemoByLocalId memos lid = some m0) :
    OfflineMemoService.syncCreateMemoSuccess memos queue item genKey rid now
      = .ok
        { memos :=
            if dateBefore m0.memoStartTime (now - 7 * 86400000) then
              deleteKeyed Memo.localId
                (putKeyed Memo.localId
                  (putKeyed Memo.localId memos { m0 with syncStatus := "syncing_create" })
                  { m0 with serverId := some rid, syncStatus := "synced" }) m0.localId
            else
              putKeyed Memo.localId
                (putKeyed Memo.localId
                  (putKeyed Memo.localId memos { m0 with syncStatus := "syncing_create" })
                  { m0 with serverId := some rid, syncStatus := "synced" })
                { m0 with serverId := some rid, syncStatus := "synced" }
          queue :=
            SyncQueueManager.markAsSuccess
              ((SyncQueueManager.getQueueItemsByLocalMemoId
                  (match jsStrOrNull item.idempotencyKey with
                   | some _ => queue
                   | none =>
                       putKeyed QueueItem.id queue { item with idempotencyKey := some genKey })
                  m0.localId).foldl
                (fun st relatedItem =>
                  if OfflineMemoService.cascadeCond relatedItem then
                    putKeyed QueueItem.id st (OfflineMemoService.cascadePatch rid relatedItem)
                  else st)
                (match jsStrOrNull item.idempotencyKey with
                 | some _ => queue
                 | none =>
                     putKeyed QueueItem.id queue { item with idempotencyKey := some genKey }))
              item.id now
          sentIdempotencyKey := (jsStrOrNull item.idempotencyKey).getD genKey } := by
  have hkl : Memo.localId m0 = lid := findKeyed_key _ _ _ _ hm0
  have hput1 : DbManager.getMemoByLocalId
      (DbManager.saveMemo memos { m0 with syncStatus := "syncing_create" }) lid
      = some { m0 with syncStatus := "syncing_create" } := by
    rw [← hkl]
    exact findKeyed_putKeyed Memo.localId memos _
  have hput2 : DbManager.getMemoByLocalId
      (DbManager.saveMemo (DbManager.saveMemo memos { m0 with syncStatus := "syncing_create" })
        { m0 with serverId := some rid, syncStatus := "synced" }) lid
      = some { m0 with serverId := some rid, syncStatus := "synced" } := by
    rw [← hkl]
    exact findKeyed_putKeyed Memo.localId _ _
  rcases hkey : jsStrOrNull item.idempotencyKey with _ | k <;>
    · simp only [OfflineMemoService.syncCreateMemoSuccess, hlid, hm0, hkey,
        DbManager.updateMemoWithServerId, hput1, hput2,
        SyncQueueManager.updateQueueItem]
      rfl

/-- The shelf entry of the C2 counterexample: created offline, CREATE in
flight, no server id yet. -/
def c2book : Book :=
  { localId := "B1", serverId := none, bookId := none, isbn := "i", title := "t"
    author := "a", publisher := "p", description := none, coverUrl := none
    totalPages := none, mainGenre := none, pubDate := none, category := "ToRead"
    expectation := none, lastReadPage := none, lastReadAt := none
    readingFinishedDate := none, purchaseType := none, rating := none, review := none
    syncStatus := "pending", createdAt := 0, updatedAt := 0, syncQueueId := some "qc" }

/-- The claimed CREATE item of the C2 counterexample (book family). -/
def c2create : QueueItem :=
  { id := "qc", type := "CREATE", localMemoId := none, serverMemoId := none
    localBookId := some "B1", serverBookId := none
    data := { memoStartTime := none, content := none }
    status := "SYNCING", originalQueueId := none, idempotencyKey := some "K"
    retryCount := 0, error := none, createdAt := 0, updatedAt := none
    lastRetryAt := none, requestUrl := none, requestMethod := none }

/-- A queued UPDATE for the same book with its server reference still
missing, enqueued after the CREATE. -/
def c2update : QueueItem :=
  { id := "qu", type := "UPDATE", localMemoId := none, serverMemoId := none
    localBookId := some "B1", serverBookId := none
    data := { memoStartTime := none, content := none }
    status := "PENDING", originalQueueId := none, idempotencyKey := none
    retryCount := 0, error := none, createdAt := 1, updatedAt := none
    lastRetryAt := none, requestUrl := none, requestMethod := none }

/-- C2 counterexample: after the shelf CREATE completes successfully with
server id 42, the queued UPDATE for the same `localBookId` still has no
server reference — the book driver's CREATE branch performs no cascade, so
the claim fails for the shelf-entry family. -/
theorem C2_counterexample :
    c2update.localBookId = c2create.localBookId ∧
    c2update.type = "UPDATE" ∧ c2update.serverBookId = none ∧
    ((OfflineBookService.syncCreateBookSuccess [c2book] [c2create, c2update] c2create
        "G" 42 100).toOption.map
        (fun r => (SyncQueueManager.getQueueItem r.queue "qu").map QueueItem.serverBookId)
      = some (some none)) := by
  refine ⟨rfl, rfl, rfl, by decide⟩

/-- C2 (amended): the cascade exists only for the memo family — after a
memo CREATE completes with server id `rid`, every queued memo UPDATE/DELETE
with the same `localMemoId` and a missing `serverMemoId` has its
`serverMemoId` set to `rid` in the resulting queue — while the shelf CREATE
branch touches no queue record other than the CREATE item itself, so
related shelf items keep whatever (possibly missing) server reference they
had. -/
theorem C2_cascade_memo_only
    (memos : MemoStore) (queue : QueueStore) (item : QueueItem) (genKey : String)
    (rid : Nat) (now : Int) (lid : String) (m0 : Memo)
    (rC : OfflineMemoService.MemoCreateOutcome)
    (hnodup : (queue.map QueueItem.id).Nodup)
    (hlid : item.localMemoId = some lid)
    (hm0 : DbManager.getMemoByLocalId memos lid = some m0)
    (hC : OfflineMemoService.syncCreateMemoSuccess memos queue item genKey rid now = .ok rC)
    (books : BookStore) (queueB : QueueStore) (itemB : QueueItem) (genKeyB : String)
    (ridB : Nat) (nowB : Int) (rB : OfflineBookService.BookCreateOutcome)
    (hB : OfflineBookService.syncCreateBookSuccess books queueB itemB genKeyB ridB nowB
      = .ok rB) :
    (∀ i ∈ queue, i.id ≠ item.id → i.localMemoId = some lid →
        OfflineMemoService.cascadeCond i →
        (SyncQueueManager.getQueueItem rC.queue i.id).map QueueItem.serverMemoId
          = some (some rid)) ∧
    (∀ k, k ≠ itemB.id →
        SyncQueueManager.getQueueItem rB.queue k
          = SyncQueueManager.getQueueItem queueB k) := by
  have hkl : Memo.localId m0 = lid := findKeyed_key _ _ _ _ hm0
  constructor
  · intro i hi hne hlidi hcond
    rw [syncCreateMemoSuccess_unfold memos queue item genKey rid now lid m0 hlid hm0] at hC
    obtain rfl := (Except.ok.injEq _ _).mp hC
    have main : ∀ q1 : QueueStore, (q1.map QueueItem.id).Nodup → i ∈ q1 →
        (SyncQueueManager.getQueueItem
          (SyncQueueManager.markAsSuccess
            ((SyncQueueManager.getQueueItemsByLocalMemoId q1 m0.localId).foldl
              (fun st relatedItem =>
                if OfflineMemoService.cascadeCond relatedItem then
                  putKeyed QueueItem.id st (OfflineMemoService.cascadePatch rid relatedItem)
                else st)
              q1)
            item.id now) i.id).map QueueItem.serverMemoId = some (some rid) := by
      intro q1 hq1nodup hiq1
      have hirel : i ∈ SyncQueueManager.getQueueItemsByLocalMemoId q1 m0.localId := by
        unfold SyncQueueManager.getQueueItemsByLocalMemoId
        refine List.mem_filter.mpr ⟨hiq1, ?_⟩
        simp [hlidi, hkl]
      have hreldist :
          ((SyncQueueManager.getQueueItemsByLocalMemoId q1 m0.localId).map QueueItem.id).Nodup :=
        List.Nodup.sublist (List.Sublist.map _ (List.filter_sublist q1)) hq1nodup
      have hfold := foldl_putKeyed_mem QueueItem.id (OfflineMemoService.cascadePatch rid)
        OfflineMemoService.cascadeCond (fun a => rfl)
        (SyncQueueManager.getQueueItemsByLocalMemoId q1 m0.localId) q1 i hirel hreldist hcond
      rw [markAsSuccess_lookup_ne _ item.id i.id now hne]
      show (findKeyed QueueItem.id _ i.id).map QueueItem.serverMemoId = _
      rw [show (i.id : String) = QueueItem.id i from rfl, hfold]
      rfl
    rcases hkeyc : jsStrOrNull item.idempotencyKey with _ | k <;> simp only [hkeyc]
    · exact main _ (keysNodup_putKeyed QueueItem.id queue _ hnodup)
        (mem_putKeyed_of_ne QueueItem.id queue _ i hne hi)
    · exact main queue hnodup hi
  · intro k hk
    rcases hlb : itemB.localBookId with _ | lidB
    · simp only [OfflineBookService.syncCreateBookSuccess, hlb] at hB
      exact Except.noConfusion hB
    · cases hbb : DbManager.getBookByLocalId books lidB with
      | none =>
          simp only [OfflineBookService.syncCreateBookSuccess, hlb, hbb] at hB
          exact Except.noConfusion hB
      | some b =>
          have hklB : Book.localId b = lidB := findKeyed_key _ _ _ _ hbb
          have hputB : DbManager.getBookByLocalId
              (DbManager.saveBook books { b with syncStatus := "syncing_create" }) lidB
              = some { b with syncStatus := "syncing_create" } := by
            rw [← hklB]
            exact findKeyed_putKeyed Book.localId books _
          have hputB2 : DbManager.getBookByLocalId
              (DbManager.saveBook
                (DbManager.saveBook books { b with syncStatus := "syncing_create" })
                { b with serverId := some ridB, syncStatus := "synced" }) lidB
              = some { b with serverId := some ridB, syncStatus := "synced" } := by
            rw [← hklB]
            exact findKeyed_putKeyed Book.localId _ _
          rcases hkeyB : jsStrOrNull itemB.idempotencyKey with _ | kB <;>
            · simp only [OfflineBookService.syncCreateBookSuccess, hlb, hbb, hkeyB,
                DbManager.updateBookWithServerId, hputB, hputB2] at hB
              obtain rfl := (Except.ok.injEq _ _).mp hB
              rw [markAsSuccess_lookup_ne _ itemB.id k nowB hk]
              all_goals first
                | rfl
                | exact findKeyed_putKeyed_ne _ _ _ _ hk

/-- The memo of the C2 witness, with its CREATE claimed and a queued UPDATE
missing its server reference. -/
def c2aMemo : Memo :=
  { localId := "MA", serverId := none, userBookId := 7, pageNumber := none
    content := "hi", tags := [], memoStartTime := some 0, syncStatus := "pending"
    createdAt := 0, updatedAt := 0, syncQueueId := some "qmc" }

/-- The claimed memo CREATE item of the C2 witness. -/
def c2aCreate : QueueItem :=
  { id := "qmc", type := "CREATE", localMemoId := some "MA", serverMemoId := none
    localBookId := none, serverBookId := none
    data := { memoStartTime := none, content := some "hi" }
    status := "SYNCING", originalQueueId := none, idempotencyKey := some "K"
    retryCount := 0, error := none, createdAt := 0, updatedAt := none
    lastRetryAt := none, requestUrl := none, requestMethod := none }

/-- The queued memo UPDATE of the C2 witness, its `serverMemoId` missing. -/
def c2aUp : QueueItem :=
  { id := "qmu", type := "UPDATE", localMemoId := some "MA", serverMemoId := none
    localBookId := none, serverBookId := none
    data := { memoStartTime := none, content := some "hi2" }
    status := "WAITING", originalQueueId := some "qmc", idempotencyKey := none
    retryCount := 0, error := none, createdAt := 1, updatedAt := none
    lastRetryAt := none, requestUrl := none, requestMethod := none }

/-- The concrete memo CREATE outcome of the C2 witness. -/
def c2rC : OfflineMemoService.MemoCreateOutcome :=
  (OfflineMemoService.syncCreateMemoSuccess [c2aMemo] [c2aCreate, c2aUp] c2aCreate
    "G" 42 100).toOption.getD { memos := [], queue := [], sentIdempotencyKey := "" }

/-- The concrete book CREATE outcome of the C2 witness (and counterexample
scenario). -/
def c2rB : OfflineBookService.BookCreateOutcome :=
  (OfflineBookService.syncCreateBookSuccess [c2book] [c2create, c2update] c2create
    "G" 42 100).toOption.getD { books := [], queue := [], sentIdempotencyKey := "" }

/-- C2 witness: at the concrete queues the memo UPDATE gets its server
reference patched to 42 while the book queue is left as it was. -/
theorem C2_cascade_memo_only_witness :
    (SyncQueueManager.getQueueItem c2rC.queue "qmu").map QueueItem.serverMemoId
      = some (some 42) ∧
    SyncQueueManager.getQueueItem c2rB.queue "qu"
      = SyncQueueManager.getQueueItem [c2create, c2update] "qu" := by
  have h := C2_cascade_memo_only [c2aMemo] [c2aCreate, c2aUp] c2aCreate "G" 42 100 "MA"
    c2aMemo c2rC (by decide) rfl (by decide) (by decide)
    [c2book] [c2create, c2update] c2create "G" 42 100 c2rB (by decide)
  exact ⟨h.1 c2aUp (by decide) (by decide) (by decide) (by decide), h.2 "qu" (by decide)⟩

theorem mem_putKeyed {α : Type} (key : α → String) (s : List α) (x a : α)
    (h : a ∈ putKeyed key s x) : a = x ∨ (a ∈ s ∧ key a ≠ key x) := by
  unfold putKeyed at h
  by_cases hany : s.any (fun y => key y = key x)
  · rw [if_pos hany] at h
    rcases List.mem_map.mp h with ⟨y, hy, hmap⟩
    by_cases hk : key y = key x
    · left
      rw [← hmap, if_pos hk]
    · right
      rw [if_neg hk] at hmap
      rw [← hmap]
      exact ⟨hy, hk⟩
  · rw [if_neg hany] at h
    rcases List.mem_append.mp h with h1 | h1
    · exact Or.inr ⟨h1, fun hk => hany (List.any_eq_true.mpr ⟨a, h1, by simpa using hk⟩)⟩
    · left
      simpa using h1

/-- C7 counterexample: the Service Worker's failed-POST handler enqueues a
CREATE outbox item with no idempotency key at all, and the worker's replay
of any queue item sends only a `Content-Type` header — no `Idempotency-Key`
— so neither half of the claim holds for worker-created CREATE items. -/
theorem C7_counterexample :
    (ServiceWorkerSync.handleFailedPostItem { memoStartTime := none, content := some "hi" }
        "/api/v1/memos" "sw-1" 100).type = "CREATE" ∧
    (ServiceWorkerSync.handleFailedPostItem { memoStartTime := none, content := some "hi" }
        "/api/v1/memos" "sw-1" 100).idempotencyKey = none ∧
    ((ServiceWorkerSync.replayRequest
        (ServiceWorkerSync.handleFailedPostItem { memoStartTime := none, content := some "hi" }
          "/api/v1/memos" "sw-1" 100)).headers.any
        (fun h => h.1 = "Idempotency-Key")) = false := by
  refine ⟨rfl, rfl, by decide⟩

/-- C7 (amended): for CREATE items enqueued by the foreground services the
claim holds — `enqueue` persists the caller's key verbatim, the sync step
sends exactly the stored key (generating and persisting one only if it was
missing) and the item ends the step still carrying the key that was sent —
but CREATE items written by the Service Worker's failed-request handler
carry no idempotency key, and the worker's replays never send an
`Idempotency-Key` header. -/
theorem C7_idempotency_key_handling
    (store : QueueStore) (req : SyncQueueManager.EnqueueArg) (freshId : String) (now : Int)
    (memos : MemoStore) (queue : QueueStore) (item : QueueItem) (genKey : String)
    (rid : Nat) (nowC : Int) (lid : String) (m0 : Memo)
    (rC : OfflineMemoService.MemoCreateOutcome)
    (hnodup : (queue.map QueueItem.id).Nodup)
    (hstored : SyncQueueManager.getQueueItem queue item.id = some item)
    (htype : item.type = "CREATE")
    (hlid : item.localMemoId = some lid)
    (hm0 : DbManager.getMemoByLocalId memos lid = some m0)
    (hC : OfflineMemoService.syncCreateMemoSuccess memos queue item genKey rid nowC = .ok rC) :
    ((SyncQueueManager.enqueue store req freshId now).2).idempotencyKey
      = jsStrOrNull req.idempotencyKey ∧
    SyncQueueManager.getQueueItem (SyncQueueManager.enqueue store req freshId now).1 freshId
      = some (SyncQueueManager.enqueue store req freshId now).2 ∧
    rC.sentIdempotencyKey = (jsStrOrNull item.idempotencyKey).getD genKey ∧
    (SyncQueueManager.getQueueItem rC.queue item.id).map QueueItem.idempotencyKey
      = some (some rC.sentIdempotencyKey) ∧
    (∀ (body : Payload) (url fid : String) (n : Int),
        (ServiceWorkerSync.handleFailedPostItem body url fid n).idempotencyKey = none) ∧
    (∀ qi : QueueItem,
        (ServiceWorkerSync.replayRequest qi).headers
          = [("Content-Type", "application/json")]) := by
  rw [syncCreateMemoSuccess_unfold memos queue item genKey rid nowC lid m0 hlid hm0] at hC
  obtain rfl := (Except.ok.injEq _ _).mp hC
  refine ⟨rfl, findKeyed_putKeyed QueueItem.id store _, rfl, ?_, fun _ _ _ _ => rfl, ?_⟩
  · have hmem : item ∈ queue := findKeyed_mem _ _ _ _ hstored
    have main : ∀ q1 : QueueStore, (q1.map QueueItem.id).Nodup →
        (∀ a ∈ q1, a.id = item.id → a.type = "CREATE") →
        ∀ v : QueueItem, findKeyed QueueItem.id q1 item.id = some v →
        (SyncQueueManager.getQueueItem
          (SyncQueueManager.markAsSuccess
            ((SyncQueueManager.getQueueItemsByLocalMemoId q1 m0.localId).foldl
              (fun st relatedItem =>
                if OfflineMemoService.cascadeCond relatedItem then
                  putKeyed QueueItem.id st (OfflineMemoService.cascadePatch rid relatedItem)
                else st)
              q1)
            item.id nowC) item.id).map QueueItem.idempotencyKey
          = some v.idempotencyKey := by
      intro q1 hq1nodup hq1create v hv
      have hpres : findKeyed QueueItem.id
          ((SyncQueueManager.getQueueItemsByLocalMemoId q1 m0.localId).foldl
            (fun st relatedItem =>
              if OfflineMemoService.cascadeCond relatedItem then
                putKeyed QueueItem.id st (OfflineMemoService.cascadePatch rid relatedItem)
              else st)
            q1) item.id
          = findKeyed QueueItem.id q1 item.id := by
        refine foldl_putKeyed_preserve QueueItem.id (OfflineMemoService.cascadePatch rid)
          OfflineMemoService.cascadeCond (fun a => rfl) _ q1 item.id ?_
        intro a ha haid hcond
        have haq1 : a ∈ q1 := List.mem_of_mem_filter ha
        have : a.type = "CREATE" := hq1create a haq1 haid
        rcases hcond.1 with h1 | h1 <;> rw [this] at h1 <;> exact absurd h1 (by decide)
      rw [markAsSuccess_lookup_self _ item.id nowC v (by rw [hpres]; exact hv)]
      rfl
    rcases hkeyc : jsStrOrNull item.idempotencyKey with _ | k <;> simp only [hkeyc]
    · have hres := main (putKeyed QueueItem.id queue { item with idempotencyKey := some genKey })
        (keysNodup_putKeyed QueueItem.id queue _ hnodup)
        (by
          intro a ha haid
          rcases mem_putKeyed QueueItem.id queue _ a ha with rfl | ⟨haq, hane⟩
          · exact htype
          · exact absurd haid hane)
        { item with idempotencyKey := some genKey }
        (findKeyed_putKeyed QueueItem.id queue _)
      rw [hres]
      rfl
    · have hres := main queue hnodup
        (by
          intro a ha haid
          have : a = item := nodupKeys_eq QueueItem.id queue hnodup a item ha hmem haid
          rw [this]
          exact htype)
        item hstored
      rw [hres]
      have hk2 : item.idempotencyKey = some k := by
        rcases hik : item.idempotencyKey with _ | s
        · exfalso
          rw [hik] at hkeyc
          simp [jsStrOrNull] at hkeyc
        · rw [hik] at hkeyc
          simp only [jsStrOrNull] at hkeyc
          by_cases hs : s = ""
          · rw [if_pos hs] at hkeyc
            cases hkeyc
          · rw [if_neg hs] at hkeyc
            rw [Option.some.injEq] at hkeyc
            rw [hkeyc]
      rw [hk2]
      rfl
  · intro qi
    unfold ServiceWorkerSync.replayRequest
    split_ifs <;> rfl

/-- The enqueue request of the C7 witness, carrying a caller-supplied key. -/
def c7req : SyncQueueManager.EnqueueArg :=
  { type := "CREATE", localMemoId := some "ML", serverMemoId := none
    data := { memoStartTime := some 10, content := some "w" }
    status := none, originalQueueId := none, idempotencyKey := some "RK" }

/-- The stored memo of the C7 witness. -/
def c7memo : Memo :=
  { localId := "ML", serverId := none, userBookId := 3, pageNumber := none
    content := "w", tags := [], memoStartTime := some 10, syncStatus := "pending"
    createdAt := 10, updatedAt := 10, syncQueueId := some "qi" }

/-- The stored CREATE item of the C7 witness, already carrying key "KK". -/
def c7item : QueueItem :=
  { id := "qi", type := "CREATE", localMemoId := some "ML", serverMemoId := none
    localBookId := none, serverBookId := none
    data := { memoStartTime := some 10, content := some "w" }
    status := "SYNCING", originalQueueId := none, idempotencyKey := some "KK"
    retryCount := 0, error := none, createdAt := 10, updatedAt := none
    lastRetryAt := none, requestUrl := none, requestMethod := none }

/-- The concrete memo CREATE outcome of the C7 witness. -/
def c7rC : OfflineMemoService.MemoCreateOutcome :=
  (OfflineMemoService.syncCreateMemoSuccess [c7memo] [c7item] c7item
    "GEN" 9 50).toOption.getD { memos := [], queue := [], sentIdempotencyKey := "" }

/-- C7 witness: at the concrete store the sync step sends the stored key
"KK" and the item still carries it afterwards; freshly enqueued items keep
the caller's key; worker-enqueued items carry none and worker replays send
only a `Content-Type` header. -/
theorem C7_idempotency_key_handling_witness :
    (SyncQueueManager.enqueue [] c7req "f1" 5).2.idempotencyKey = some "RK" ∧
    c7rC.sentIdempotencyKey = "KK" ∧
    (SyncQueueManager.getQueueItem c7rC.queue "qi").map QueueItem.idempotencyKey
      = some (some "KK") ∧
    (ServiceWorkerSync.handleFailedPostItem { memoStartTime := none, content := none }
      "/api/v1/memos" "sw-2" 7).idempotencyKey = none ∧
    (ServiceWorkerSync.replayRequest c7item).headers
      = [("Content-Type", "application/json")] := by
  have h := C7_idempotency_key_handling [] c7req "f1" 5 [c7memo] [c7item] c7item "GEN" 9 50
    "ML" c7memo c7rC (by decide) (by decide) rfl rfl (by decide) (by decide)
  exact ⟨h.1, h.2.2.1, h.2.2.2.1, h.2.2.2.2.1 _ _ _ _, h.2.2.2.2.2 c7item⟩

end ReadingTracker
